import Mathlib

/-! polygon-id-auth: wallet set-up and the authentication driver.

A shallow embedding of `src/walletSetup.js` and `src/auth.js`.

* Plain JavaScript objects that are read dynamically (`config`,
  `defaultEthConnectionConfig`, the `conf` literals) live in a heap of property lists and
  are passed by address, so that object identity and non-modification can be stated.
* Instances of SDK classes are records carrying the identity `id` they received from
  `new`, followed by the constructor arguments in constructor order. The constructors
  that connect to the chain throw on a configuration they refuse.
* Code runs in the monad `JS`: a state transformer over `World` whose result is either a
  value or a thrown error; the state survives a throw, as it does in JavaScript.
* Classes, constants and methods of `@0xpolygonid/js-sdk` and `@iden3/js-jwz` are not part
  of the repository sources; where a property needs their behaviour it is modelled from
  the specification and marked as such.
-/

set_option autoImplicit false

namespace PolygonIdAuth

/-! ## JavaScript values, plain objects, errors -/

/-- Primitive JavaScript values occurring as properties of configuration objects. -/
inductive JSValue
  | undefined
  | null
  | bool (b : Bool)
  | num (n : Int)
  | str (s : String)
  deriving DecidableEq, Repr

/-- A plain object, as the sequence of property definitions made on it, oldest first.
A later definition of a key replaces an earlier one when the property is read. -/
abbrev JSObject := List (String × JSValue)

/-- Property read `o.k`: the most recent definition of `k`, `undefined` when there is none. -/
def getProp (o : JSObject) (k : String) : JSValue :=
  match o.reverse.find? (fun p => p.1 == k) with
  | some p => p.2
  | none => JSValue.undefined

/-- Errors of the specification's taxonomy (section 7), the `TypeError` of the language,
and any other thrown value. -/
inductive JSError
  | MalformedMessageError
  | UnsupportedAlgorithmError
  | UnregisteredStrategyError
  | CircuitDataUnavailableError
  | ProofGenerationError
  | ProofVerificationError
  | RevokedCredentialError
  | StateVerificationError
  | ResolutionUnavailableError
  | KeyNotFoundError
  | UnsupportedKeyTypeError
  | DuplicateProviderError
  | TreeDepthExceededError
  | TypeError (msg : String)
  | other (msg : String)
  deriving DecidableEq, Repr

/-! ## The execution monad -/

/-- Address of a plain object in the heap. -/
abbrev Ref := Nat

/-- Identity of a class instance: the number of instances constructed before it. -/
abbrev ObjId := Nat

/-- The mutable world: plain objects by address, the instance counter, and the state of
the external collaborators (network, chain, file system). -/
structure World where
  heap : List JSObject
  nextId : Nat
  ext : Nat
  deriving DecidableEq, Repr

/-- A computation over a state `σ`: from a state to a value or a thrown error, and a
state. The state survives a throw. -/
def Comp (σ α : Type) : Type := σ → Except JSError α × σ

/-- Normal completion with a value. -/
def Comp.pure {σ α : Type} (a : α) : Comp σ α := fun s => (Except.ok a, s)

/-- Sequencing: a throw in the first computation skips the second. -/
def Comp.bind {σ α β : Type} (x : Comp σ α) (f : α → Comp σ β) : Comp σ β := fun s =>
  match x s with
  | (Except.ok a, s1) => f a s1
  | (Except.error e, s1) => (Except.error e, s1)

/-- The statement `throw e`. -/
def Comp.throw {σ α : Type} (e : JSError) : Comp σ α := fun s => (Except.error e, s)

/-- The statement `try x catch (e) h e`. -/
def Comp.tryCatch {σ α : Type} (x : Comp σ α) (h : JSError → Comp σ α) : Comp σ α := fun s =>
  match x s with
  | (Except.ok a, s1) => (Except.ok a, s1)
  | (Except.error e, s1) => h e s1

instance {σ : Type} : Monad (Comp σ) where
  pure := Comp.pure
  bind := Comp.bind

instance {σ : Type} : MonadExcept JSError (Comp σ) where
  throw := Comp.throw
  tryCatch := Comp.tryCatch

/-- Code of the library layer: it acts on the world and has no access to the console. -/
abbrev JS := Comp World

/-- Identity given by `new` to the instance under construction. -/
def newId : JS ObjId := fun w => (Except.ok w.nextId, { w with nextId := w.nextId + 1 })

/-- Evaluation of an object literal: the object is stored at a fresh address. -/
def allocObj (o : JSObject) : JS Ref := fun w =>
  (Except.ok w.heap.length, { w with heap := w.heap ++ [o] })

/-- The object at an address (the empty object for an address never allocated). -/
def deref (r : Ref) : JS JSObject := fun w => (Except.ok (w.heap.getD r []), w)

/-! ## JavaScript `Map` -/

/-- A `Map`, as its entries in insertion order; keys are pairwise distinct. -/
abbrev JSMap (κ ν : Type) := List (κ × ν)

/-- The method `Map.prototype.set`: replaces the value of an existing key in place,
appends a new key at the end. -/
def JSMap.set {κ ν : Type} [DecidableEq κ] : JSMap κ ν → κ → ν → JSMap κ ν
  | [], k, v => [(k, v)]
  | (k1, v1) :: rest, k, v =>
    if k1 = k then (k1, v) :: rest else (k1, v1) :: JSMap.set rest k v

/-- The method `Map.prototype.get` (`none` stands for `undefined`). -/
def JSMap.get {κ ν : Type} [DecidableEq κ] : JSMap κ ν → κ → Option ν
  | [], _ => none
  | (k1, v1) :: rest, k => if k1 = k then some v1 else JSMap.get rest k

/-- The keys of a map, in insertion order. -/
def JSMap.keys {κ ν : Type} (m : JSMap κ ν) : List κ := m.map Prod.fst

/-- The constructor `new Map(entries)`: sets the entries one after another. -/
def JSMap.ofEntries {κ ν : Type} [DecidableEq κ] (entries : List (κ × ν)) : JSMap κ ν :=
  entries.foldl (fun m e => JSMap.set m e.1 e.2) []

/-! ## Constants of the SDK used by the sources -/

/-- Modelled from the spec: the strategy tags of section 4.3. The enum
`CredentialStatusType` is declared in the SDK, not in the sources; its four members used
by the sources are string constants, one per strategy, and pairwise different. This one is
the tag of the issuer-hosted strategy. -/
def CredentialStatusType.SparseMerkleTreeProof : String := "SparseMerkleTreeProof"

/-- Modelled from the spec: tag of the reverse-hosted-service strategy. -/
def CredentialStatusType.Iden3ReverseSparseMerkleTreeProof : String :=
  "Iden3ReverseSparseMerkleTreeProof"

/-- Modelled from the spec: tag of the on-chain strategy. -/
def CredentialStatusType.Iden3OnchainSparseMerkleTreeProof2023 : String :=
  "Iden3OnchainSparseMerkleTreeProof2023"

/-- Modelled from the spec: tag of the agent strategy. -/
def CredentialStatusType.Iden3commRevocationStatusV1 : String :=
  "Iden3commRevocationStatusV1.0"

/-- Modelled from the spec: the key types a KMS provider can be registered for; the enum
`KmsKeyType` is declared in the SDK. -/
inductive KmsKeyType
  | BabyJubJub
  | Secp256k1
  | Ed25519
  deriving DecidableEq, Repr

/-- Modelled from the spec: media type of the plain packer (`MediaType.PlainMessage`). -/
def MediaType.PlainMessage : String := "application/iden3comm-plain-json"

/-- Modelled from the spec: media type of the proof-carrying packer
(`MediaType.ZKPMessage`). -/
def MediaType.ZKPMessage : String := "application/iden3-zkp-json"

/-- Modelled from the spec: the authorization-request message type
(`PROTOCOL_MESSAGE_TYPE.AUTHORIZATION_REQUEST_MESSAGE_TYPE`). -/
def AUTHORIZATION_REQUEST_MESSAGE_TYPE : String :=
  "https://iden3-communication.io/authorization/1.0/request"

/-- Modelled from the spec: the algorithm string
`proving.provingMethodGroth16AuthV2Instance.methodAlg.toString()` of `@iden3/js-jwz`. -/
def provingMethodGroth16AuthV2Alg : String := "groth16:authV2"

/-- The circuit identifier `CircuitId.AuthV2`. -/
def CircuitId.AuthV2 : String := "authV2"

/-! ## Instances of SDK classes

Each record is what `new C(args)` yields: the identity of the instance and the constructor
arguments, in the order the sources pass them. -/

/-- Result of `new InMemoryDataSource()`. -/
structure InMemoryDataSource where
  id : ObjId
  deriving DecidableEq, Repr

/-- Result of `new CredentialStorage(source)`. -/
structure CredentialStorage where
  id : ObjId
  source : InMemoryDataSource
  deriving DecidableEq, Repr

/-- Result of `new IdentityStorage(identities, profiles)`. -/
structure IdentityStorage where
  id : ObjId
  identities : InMemoryDataSource
  profiles : InMemoryDataSource
  deriving DecidableEq, Repr

/-- Result of `new InMemoryMerkleTreeStorage(depth)`. -/
structure InMemoryMerkleTreeStorage where
  id : ObjId
  depth : Nat
  deriving DecidableEq, Repr

/-- Result of `new EthStateStorage(conf)`; `conf` is held by reference. -/
structure EthStateStorage where
  id : ObjId
  conf : Ref
  deriving DecidableEq, Repr

/-- The object literal `dataStorage` of `initInMemoryDataStorage`. -/
structure DataStorage where
  id : ObjId
  credential : CredentialStorage
  identity : IdentityStorage
  mt : InMemoryMerkleTreeStorage
  states : EthStateStorage
  deriving DecidableEq, Repr

/-- Result of `new IssuerResolver()`. -/
structure IssuerResolver where
  id : ObjId
  deriving DecidableEq, Repr

/-- Result of `new RHSResolver(state)`. -/
structure RHSResolver where
  id : ObjId
  state : EthStateStorage
  deriving DecidableEq, Repr

/-- Result of `new OnChainResolver(configs)`; the configurations are held by reference. -/
structure OnChainResolver where
  id : ObjId
  configs : List Ref
  deriving DecidableEq, Repr

/-- Result of `new AgentResolver()`. -/
structure AgentResolver where
  id : ObjId
  deriving DecidableEq, Repr

/-- A credential-status resolver: one of the four classes the sources instantiate. -/
inductive CredentialStatusResolver
  | issuer (r : IssuerResolver)
  | rhs (r : RHSResolver)
  | onChain (r : OnChainResolver)
  | agent (r : AgentResolver)
  deriving DecidableEq, Repr

/-- The four strategies required by section 4.3 of the specification. -/
inductive Strategy
  | issuerHosted
  | reverseHostedService
  | onChain
  | agent
  deriving DecidableEq, Repr

/-- The strategy a resolver class implements. -/
def CredentialStatusResolver.strategy : CredentialStatusResolver → Strategy
  | .issuer _ => Strategy.issuerHosted
  | .rhs _ => Strategy.reverseHostedService
  | .onChain _ => Strategy.onChain
  | .agent _ => Strategy.agent

/-- Result of `new CredentialStatusResolverRegistry()` and of the registrations made on
it: a map from strategy tag to resolver. -/
structure CredentialStatusResolverRegistry where
  id : ObjId
  resolvers : JSMap String CredentialStatusResolver
  deriving DecidableEq, Repr

/-- Modelled from the spec: `register(tag, resolver)` of the registry "keyed by
status-strategy tag"; the class is declared in the SDK. -/
def CredentialStatusResolverRegistry.register (reg : CredentialStatusResolverRegistry)
    (tag : String) (resolver : CredentialStatusResolver) : CredentialStatusResolverRegistry :=
  { reg with resolvers := JSMap.set reg.resolvers tag resolver }

/-- Modelled from the spec: the resolver registered for a tag, if any. -/
def CredentialStatusResolverRegistry.get (reg : CredentialStatusResolverRegistry)
    (tag : String) : Option CredentialStatusResolver :=
  JSMap.get reg.resolvers tag

/-- Result of `new CredentialWallet(storage, resolvers)`. -/
structure CredentialWallet where
  id : ObjId
  storage : DataStorage
  resolvers : CredentialStatusResolverRegistry
  deriving DecidableEq, Repr

/-- Result of `new InMemoryPrivateKeyStore()`. -/
structure InMemoryPrivateKeyStore where
  id : ObjId
  deriving DecidableEq, Repr

/-- Result of `new BjjProvider(keyType, keyStore)`. -/
structure BjjProvider where
  id : ObjId
  keyType : KmsKeyType
  keyStore : InMemoryPrivateKeyStore
  deriving DecidableEq, Repr

/-- Result of `new KMS()` and of the registrations made on it. -/
structure KMS where
  id : ObjId
  registry : JSMap KmsKeyType BjjProvider
  deriving DecidableEq, Repr

/-- Result of `new Iden3SmtRhsCredentialStatusPublisher()`. -/
structure Iden3SmtRhsCredentialStatusPublisher where
  id : ObjId
  deriving DecidableEq, Repr

/-- Result of `new CredentialStatusPublisherRegistry()` and of the registrations made on
it. -/
structure CredentialStatusPublisherRegistry where
  id : ObjId
  publishers : JSMap String Iden3SmtRhsCredentialStatusPublisher
  deriving DecidableEq, Repr

/-- Modelled from the spec: `register(tag, publisher)` of the publisher registry, keyed by
strategy tag like the resolver registry; the class is declared in the SDK. -/
def CredentialStatusPublisherRegistry.register (reg : CredentialStatusPublisherRegistry)
    (tag : String) (publisher : Iden3SmtRhsCredentialStatusPublisher) :
    CredentialStatusPublisherRegistry :=
  { reg with publishers := JSMap.set reg.publishers tag publisher }

/-- Modelled from the spec: the publisher registered for a tag, if any. -/
def CredentialStatusPublisherRegistry.get (reg : CredentialStatusPublisherRegistry)
    (tag : String) : Option Iden3SmtRhsCredentialStatusPublisher :=
  JSMap.get reg.publishers tag

/-- The options literal given to `new IdentityWallet`. -/
structure IdentityWalletOptions where
  credentialStatusPublisherRegistry : CredentialStatusPublisherRegistry
  deriving DecidableEq, Repr

/-- Result of `new IdentityWallet(kms, storage, credentialWallet, opts)`. -/
structure IdentityWallet where
  id : ObjId
  kms : KMS
  storage : DataStorage
  credentialWallet : CredentialWallet
  opts : IdentityWalletOptions
  deriving DecidableEq, Repr

/-- The object returned by `initInMemoryDataStorageAndWallets`. -/
structure Wallets where
  dataStorage : DataStorage
  credentialWallet : CredentialWallet
  identityWallet : IdentityWallet
  kms : KMS
  deriving DecidableEq, Repr

/-- Result of `new FSCircuitStorage(opts)`, `opts` the literal with the one field
`dirname`. -/
structure FSCircuitStorage where
  id : ObjId
  dirname : String
  deriving DecidableEq, Repr

/-- The options literal given to `new ProofService`. -/
structure ProofServiceOptions where
  ipfsGatewayURL : String
  deriving DecidableEq, Repr

/-- Result of `new ProofService(a1, a2, a3, a4, opts)`. The fields are the constructor
arguments by position; the third is the service's circuit store and the fourth its state
storage. -/
structure ProofService where
  id : ObjId
  identityWallet : IdentityWallet
  credentialWallet : CredentialWallet
  circuitStorage : FSCircuitStorage
  stateStorage : EthStateStorage
  opts : ProofServiceOptions
  deriving DecidableEq, Repr

/-- A function value: a method of a proof service bound to a receiver by `bind`, or any
other function object, named by its identity. -/
inductive JSFunction
  | boundMethod (method : String) (receiver : ProofService)
  | other (id : ObjId)
  deriving DecidableEq, Repr

/-- Binary data (`Uint8Array`). -/
abbrev Bytes := List (Fin 256)

/-- The object returned by `loadCircuitData`; a missing artifact is `none`. -/
structure CircuitData where
  circuitId : String
  wasm : Option Bytes
  provingKey : Option Bytes
  verificationKey : Option Bytes
  deriving DecidableEq, Repr

/-- Result of `new DataPrepareHandlerFunc(fn)`. -/
structure DataPrepareHandlerFunc where
  id : ObjId
  fn : JSFunction
  deriving DecidableEq, Repr

/-- Result of `new VerificationHandlerFunc(fn)`. -/
structure VerificationHandlerFunc where
  id : ObjId
  fn : JSFunction
  deriving DecidableEq, Repr

/-- The literal stored in `verificationParamMap`. -/
structure VerificationParams where
  key : Option Bytes
  verificationFn : VerificationHandlerFunc
  deriving DecidableEq, Repr

/-- The literal stored in `provingParamMap`. -/
structure ProvingParams where
  dataPreparer : DataPrepareHandlerFunc
  provingKey : Option Bytes
  wasm : Option Bytes
  deriving DecidableEq, Repr

/-- Result of `new ZKPPacker(provingParamMap, verificationParamMap)`. -/
structure ZKPPacker where
  id : ObjId
  provingParamsMap : JSMap String ProvingParams
  verificationParamsMap : JSMap String VerificationParams
  deriving DecidableEq, Repr

/-- Result of `new PlainPacker()`. -/
structure PlainPacker where
  id : ObjId
  deriving DecidableEq, Repr

/-- A packer: one of the two classes the sources instantiate. -/
inductive Packer
  | zkp (p : ZKPPacker)
  | plain (p : PlainPacker)
  deriving DecidableEq, Repr

/-- Modelled from the spec: the media type a packer is registered under (its
`mediaType()`); the packer classes are declared in the SDK. -/
def Packer.mediaType : Packer → String
  | .zkp _ => MediaType.ZKPMessage
  | .plain _ => MediaType.PlainMessage

/-- Result of `new PackageManager()` and of the registrations made on it: a map from media
type to packer. -/
structure PackageManager where
  id : ObjId
  packers : JSMap String Packer
  deriving DecidableEq, Repr

/-- Modelled from the spec: `registerPacker(mediaType, packer)` of the registry "keyed by
media type"; the class is declared in the SDK. -/
def PackageManager.registerPacker (mgr : PackageManager) (mediaType : String)
    (packer : Packer) : PackageManager :=
  { mgr with packers := JSMap.set mgr.packers mediaType packer }

/-- Modelled from the spec: `registerPackers(packers)` registers each packer of the array,
in order, under its own media type. -/
def PackageManager.registerPackers (mgr : PackageManager) (packers : List Packer) :
    PackageManager :=
  packers.foldl (fun m p => m.registerPacker p.mediaType p) mgr

/-- Modelled from the spec: the packer registered for a media type, if any. -/
def PackageManager.getPacker (mgr : PackageManager) (mediaType : String) : Option Packer :=
  JSMap.get mgr.packers mediaType

/-- Modelled from the spec: `registerProvider(keyType, provider)` "registers exactly one
provider per key type, fails with `DuplicateProviderError` on re-registration"
(`registerKeyProvider` in the sources); the class is declared in the SDK. -/
def KMS.registerKeyProvider (kms : KMS) (keyType : KmsKeyType) (provider : BjjProvider) :
    JS KMS :=
  match JSMap.get kms.registry keyType with
  | some _ => throw JSError.DuplicateProviderError
  | none => pure { kms with registry := JSMap.set kms.registry keyType provider }

/-! ## `src/walletSetup.js` -/

/-- The object literal of lines 34-39 and 55-60: the properties of
`defaultEthConnectionConfig` spread first, then `contractAddress`, `url` and `chainId`
defined from `config`. -/
def confLiteral (defaults config : JSObject) : JSObject :=
  defaults ++
    [("contractAddress", getProp config "contractAddress"),
     ("url", getProp config "rpcUrl"),
     ("chainId", getProp config "chainId")]

/-- Evaluation of the literal `conf` in a function of `walletSetup.js`: both objects are
read, the new object is allocated. -/
def ethConnectionConfig (defaultEthConnectionConfig config : Ref) : JS Ref := do
  let defaults ← deref defaultEthConnectionConfig
  let cfg ← deref config
  allocObj (confLiteral defaults cfg)

/-- What the constructors of the SDK that connect to the chain do with a connection
configuration, before any object exists: they open a JSON-RPC provider on `url` and a
contract on `contractAddress`. The libraries refuse with a `TypeError` a `url` that is a
number or a boolean, and a `contractAddress` that is not a string, `undefined` included.
The constructors are declared in the SDK, not in the sources. -/
def ethConfigError (conf : JSObject) : Option JSError :=
  match getProp conf "url" with
  | .num _ => some (JSError.TypeError "url.clone is not a function")
  | .bool _ => some (JSError.TypeError "url.clone is not a function")
  | _ =>
    match getProp conf "contractAddress" with
    | .str _ => none
    | _ => some (JSError.TypeError "invalid value for Contract target")

/-- The expression `new EthStateStorage(conf)`: throws when the configuration is refused,
else yields a new instance holding `conf` by reference. -/
def EthStateStorage.new (conf : Ref) : JS EthStateStorage := do
  let o ← deref conf
  match ethConfigError o with
  | some e => throw e
  | none => return { id := ← newId, conf }

/-- The expression `new OnChainResolver(configs)`: the resolver connects with the first
configuration of the array, and throws when it is refused. -/
def OnChainResolver.new (configs : List Ref) : JS OnChainResolver := do
  match configs with
  | [] => return { id := ← newId, configs }
  | conf :: _ =>
    let o ← deref conf
    match ethConfigError o with
    | some e => throw e
    | none => return { id := ← newId, configs }

section walletSetup

-- The export `defaultEthConnectionConfig` of the SDK: the address of a plain object
-- whose properties are not known to the sources.
variable (defaultEthConnectionConfig : Ref)

/-- Source: `initInMemoryDataStorage(config)`, lines 33-52. -/
def initInMemoryDataStorage (config : Ref) : JS DataStorage := do
  let conf ← ethConnectionConfig defaultEthConnectionConfig config
  let credentialSource : InMemoryDataSource := { id := ← newId }
  let credential : CredentialStorage := { id := ← newId, source := credentialSource }
  let identities : InMemoryDataSource := { id := ← newId }
  let profiles : InMemoryDataSource := { id := ← newId }
  let identity : IdentityStorage := { id := ← newId, identities, profiles }
  let mt : InMemoryMerkleTreeStorage := { id := ← newId, depth := 40 }
  let states ← EthStateStorage.new conf
  let dataStorage : DataStorage := { id := ← newId, credential, identity, mt, states }
  return dataStorage

/-- Source: `initCredentialWallet(dataStorage, config)`, lines 54-75. -/
def initCredentialWallet (dataStorage : DataStorage) (config : Ref) : JS CredentialWallet := do
  let conf ← ethConnectionConfig defaultEthConnectionConfig config
  let mut resolvers : CredentialStatusResolverRegistry := { id := ← newId, resolvers := [] }
  resolvers := resolvers.register CredentialStatusType.SparseMerkleTreeProof
    (.issuer { id := ← newId })
  resolvers := resolvers.register CredentialStatusType.Iden3ReverseSparseMerkleTreeProof
    (.rhs { id := ← newId, state := dataStorage.states })
  resolvers := resolvers.register CredentialStatusType.Iden3OnchainSparseMerkleTreeProof2023
    (.onChain (← OnChainResolver.new [conf]))
  resolvers := resolvers.register CredentialStatusType.Iden3commRevocationStatusV1
    (.agent { id := ← newId })
  return { id := ← newId, storage := dataStorage, resolvers }

/-- Source: `initInMemoryDataStorageAndWallets(config)`, lines 77-103. -/
def initInMemoryDataStorageAndWallets (config : Ref) : JS Wallets := do
  let dataStorage ← initInMemoryDataStorage defaultEthConnectionConfig config
  let credentialWallet ← initCredentialWallet defaultEthConnectionConfig dataStorage config
  let memoryKeyStore : InMemoryPrivateKeyStore := { id := ← newId }
  let bjjProvider : BjjProvider :=
    { id := ← newId, keyType := KmsKeyType.BabyJubJub, keyStore := memoryKeyStore }
  let mut kms : KMS := { id := ← newId, registry := [] }
  kms ← kms.registerKeyProvider KmsKeyType.BabyJubJub bjjProvider
  let mut credentialStatusPublisherRegistry : CredentialStatusPublisherRegistry :=
    { id := ← newId, publishers := [] }
  credentialStatusPublisherRegistry := credentialStatusPublisherRegistry.register
    CredentialStatusType.Iden3ReverseSparseMerkleTreeProof { id := ← newId }
  let identityWallet : IdentityWallet :=
    { id := ← newId, kms, storage := dataStorage, credentialWallet,
      opts := { credentialStatusPublisherRegistry } }
  return { dataStorage, credentialWallet, identityWallet, kms }

end walletSetup

/-- Source: `initCircuitStorage(circuitsFolder)`, lines 105-109. -/
def initCircuitStorage (circuitsFolder : String) : JS FSCircuitStorage := do
  return { id := ← newId, dirname := circuitsFolder }

/-- Source: `initProofService(identityWallet, credentialWallet, stateStorage,
circuitStorage)`, lines 111-120: the constructor receives `circuitStorage` third and
`stateStorage` fourth. -/
def initProofService (identityWallet : IdentityWallet) (credentialWallet : CredentialWallet)
    (stateStorage : EthStateStorage) (circuitStorage : FSCircuitStorage) : JS ProofService := do
  let id ← newId
  return ProofService.mk id identityWallet credentialWallet circuitStorage stateStorage
    { ipfsGatewayURL := "https://ipfs.io" }

/-- Source: `initPackageManager(circuitData, prepareFn, stateVerificationFn)`, lines
122-154. -/
def initPackageManager (circuitData : CircuitData) (prepareFn stateVerificationFn : JSFunction) :
    JS PackageManager := do
  let authInputsHandler : DataPrepareHandlerFunc := { id := ← newId, fn := prepareFn }
  let verificationFn : VerificationHandlerFunc := { id := ← newId, fn := stateVerificationFn }
  let mapKey := provingMethodGroth16AuthV2Alg
  let verificationParamMap : JSMap String VerificationParams :=
    JSMap.ofEntries [(mapKey, { key := circuitData.verificationKey, verificationFn })]
  let mut provingParamMap : JSMap String ProvingParams := []
  provingParamMap := JSMap.set provingParamMap mapKey
    { dataPreparer := authInputsHandler,
      provingKey := circuitData.provingKey,
      wasm := circuitData.wasm }
  let mut mgr : PackageManager := { id := ← newId, packers := [] }
  let packer : ZKPPacker :=
    { id := ← newId, provingParamsMap := provingParamMap,
      verificationParamsMap := verificationParamMap }
  let plainPacker : PlainPacker := { id := ← newId }
  mgr := mgr.registerPackers [Packer.zkp packer, Packer.plain plainPacker]
  return mgr

/-! ## Operations of the SDK, modelled from the specification -/

/-- The descriptor `CredentialStatus` of section 3: strategy tag, resolution endpoint,
revocation nonce. -/
structure CredentialStatus where
  type : String
  id : String
  revocationNonce : Nat
  deriving DecidableEq, Repr

/-- The result `RevocationStatus` of section 3: issuer state root and the proof for the
nonce. -/
structure RevocationStatus where
  issuerStateRoot : Bytes
  proof : Bytes
  deriving DecidableEq, Repr

/-- Modelled from the spec: `resolve(status)` of the resolver registry, declared in the
SDK. The resolver registered for the tag of `status` answers through its backend (an
external interface, here the parameter `backend`); "`resolve` fails with
`UnregisteredStrategyError` for unknown tags". -/
def CredentialStatusResolverRegistry.resolve
    (backend : CredentialStatusResolver → CredentialStatus → Except JSError RevocationStatus)
    (reg : CredentialStatusResolverRegistry) (status : CredentialStatus) :
    Except JSError RevocationStatus :=
  match reg.get status.type with
  | none => Except.error JSError.UnregisteredStrategyError
  | some resolver => backend resolver status

/-- The record `ProofEnvelope` of section 3. -/
structure ProofEnvelope where
  circuitId : String
  proof : Bytes
  pubSignals : List Nat
  deriving DecidableEq, Repr

/-- A proof-carrying envelope: the header naming the proving algorithm, the payload and
the proof. -/
structure ZKPEnvelope where
  alg : String
  payload : Bytes
  proof : ProofEnvelope
  deriving DecidableEq, Repr

/-- Modelled from the spec: `pack` of the proof-carrying packer, declared in the SDK. It
"wraps header identifying the proving algorithm, payload, ProofEnvelope produced by a
caller-supplied proof-preparation function"; the preparation and the proof backend are the
parameter `prove`. An algorithm without proving parameters cannot be packed with. -/
def ZKPPacker.pack (prove : ProvingParams → Bytes → Except JSError ProofEnvelope)
    (packer : ZKPPacker) (payload : Bytes) (alg : String) : Except JSError ZKPEnvelope :=
  match JSMap.get packer.provingParamsMap alg with
  | none => Except.error JSError.UnsupportedAlgorithmError
  | some params =>
    match prove params payload with
    | Except.error e => Except.error e
    | Except.ok proof => Except.ok { alg, payload, proof }

/-- Modelled from the spec: `unpack` of the proof-carrying packer, declared in the SDK. It
"looks up the verification function registered for the declared algorithm, and calls it
with the embedded ProofEnvelope and payload"; it "fails with `ProofVerificationError` if
verification returns false, `UnsupportedAlgorithmError` if no verifier is registered for
the declared algorithm". -/
def ZKPPacker.unpack (verify : VerificationParams → ProofEnvelope → Bytes → Bool)
    (packer : ZKPPacker) (envelope : ZKPEnvelope) : Except JSError Bytes :=
  match JSMap.get packer.verificationParamsMap envelope.alg with
  | none => Except.error JSError.UnsupportedAlgorithmError
  | some params =>
    if verify params envelope.proof envelope.payload then Except.ok envelope.payload
    else Except.error JSError.ProofVerificationError

/-- The record `CircuitQuery` of section 3. -/
structure CircuitQuery where
  circuitId : String
  publicInputs : List Nat
  deriving DecidableEq, Repr

/-- Body of an authorization request on the wire (section 6); an absent field is `none`. -/
structure AuthorizationRequestBody where
  callbackUrl : Option String
  message : Option String
  reason : Option String
  scope : Option (List CircuitQuery)
  deriving DecidableEq, Repr

/-- The wire shape `ProtocolMessage` of section 6, as received; an absent field is
`none`. -/
structure ProtocolMessage where
  id : Option String
  thid : Option String
  typ : Option String
  type : Option String
  «from» : Option String
  «to» : Option String
  body : Option AuthorizationRequestBody
  deriving DecidableEq, Repr

/-- An authorization request that passed validation: the required fields, present. -/
structure ParsedRequest where
  id : String
  type : String
  «from» : String
  callbackUrl : String
  message : ProtocolMessage
  deriving DecidableEq, Repr

/-- Modelled from the spec: the transition `Received → Parsed` of the Auth Handler,
declared in the SDK. It fails with `MalformedMessageError` "if required fields id, type,
from, body.callbackUrl are absent, or if `type` is not the authorization-request type". -/
def receivedToParsed (msg : ProtocolMessage) : Except JSError ParsedRequest :=
  match msg.id, msg.type, msg.«from», msg.body with
  | some id, some type, some sender, some body =>
    match body.callbackUrl with
    | some callbackUrl =>
      if type = AUTHORIZATION_REQUEST_MESSAGE_TYPE then
        Except.ok { id, type, «from» := sender, callbackUrl, message := msg }
      else Except.error JSError.MalformedMessageError
    | none => Except.error JSError.MalformedMessageError
  | _, _, _, _ => Except.error JSError.MalformedMessageError

/-! ## `src/auth.js` -/

/-- Source: line 19. -/
def RPC_URL : String := "https://rpc-amoy.polygon.technology"

/-- Source: line 20. -/
def CONTRACT_ADDRESS : String := "0x1a4cC30f2aA0377b0c3bc9848766D90cb4404124"

/-- Source: line 21. -/
def CHAIN_ID : Int := 80002

/-- Source: line 22. -/
def RHS_URL : String := "https://rhs-staging.polygonid.me"

/-- A decentralized identifier; `string` is what `did.string()` returns. -/
structure DID where
  string : String
  deriving DecidableEq, Repr

/-- The genesis credential returned by `createIdentity`. -/
structure W3CCredential where
  id : String
  deriving DecidableEq, Repr

/-- The literal `revocationOpts`. -/
structure RevocationOpts where
  type : String
  id : String
  deriving DecidableEq, Repr

/-- The options literal given to `createIdentity`. -/
structure IdentityCreationOptions where
  method : String
  blockchain : String
  networkId : String
  revocationOpts : RevocationOpts
  deriving DecidableEq, Repr

/-- Result of `new AuthHandler(packageManager, proofService)`. -/
structure AuthHandler where
  id : ObjId
  packageManager : PackageManager
  proofService : ProofService
  deriving DecidableEq, Repr

/-- What `handleAuthorizationRequest` resolves to; `json` is its `JSON.stringify`. -/
structure AuthHandlerResponse where
  json : String
  deriving DecidableEq, Repr

/-- A call made by `main`, with the arguments it is made with. -/
inductive Call
  | initInMemoryDataStorageAndWallets (config : Ref)
  | initCircuitStorage (circuitsFolder : String)
  | initProofService (identityWallet : IdentityWallet) (credentialWallet : CredentialWallet)
      (stateStorage : EthStateStorage) (circuitStorage : FSCircuitStorage)
  | createIdentity (wallet : IdentityWallet) (opts : IdentityCreationOptions)
  | loadCircuitData (storage : FSCircuitStorage) (circuitId : String)
  | initPackageManager (circuitData : CircuitData) (prepareFn stateVerificationFn : JSFunction)
  | handleAuthorizationRequest (handler : AuthHandler) (did : DID) (request : ProtocolMessage)
  deriving DecidableEq, Repr

/-- The name of the function called. -/
def Call.name : Call → String
  | .initInMemoryDataStorageAndWallets _ => "initInMemoryDataStorageAndWallets"
  | .initCircuitStorage _ => "initCircuitStorage"
  | .initProofService _ _ _ _ => "initProofService"
  | .createIdentity _ _ => "createIdentity"
  | .loadCircuitData _ _ => "loadCircuitData"
  | .initPackageManager _ _ _ => "initPackageManager"
  | .handleAuthorizationRequest _ _ _ => "handleAuthorizationRequest"

/-- What the console and the process observe of a run: the lines printed (one string per
argument of `console.log` or `console.error`), the exit of the process, and the calls made
with their outcome. -/
inductive Event
  | log (args : List String)
  | logError (args : List String)
  | processExit (code : Nat)
  | call (c : Call)
  | returned (name : String)
  | threw (name : String) (error : JSError)
  deriving DecidableEq, Repr

/-- The running process: the world and what has been observed so far. -/
structure Process where
  world : World
  out : List Event
  deriving DecidableEq, Repr

/-- Code of the script: it acts on the process. -/
abbrev Script := Comp Process

/-- Appends an event to the observations. -/
def emit (e : Event) : Script Unit := fun p => (Except.ok (), { p with out := p.out ++ [e] })

/-- Runs library code inside the script. -/
def liftJS {α : Type} (x : JS α) : Script α := fun p =>
  match x p.world with
  | (r, w) => (r, { p with world := w })

/-- A call `c`, whose callee behaves as `x`: the call is observed, the callee runs, and its
outcome (return or throw) is observed. A rejected promise that is awaited is a throw. -/
def invoke {α : Type} (c : Call) (x : JS α) : Script α := fun p =>
  match x p.world with
  | (Except.ok a, w) =>
    (Except.ok a, { world := w, out := p.out ++ [Event.call c, Event.returned c.name] })
  | (Except.error e, w) =>
    (Except.error e, { world := w, out := p.out ++ [Event.call c, Event.threw c.name e] })

/-- The functions `main` calls: those imported from `./walletSetup` and the asynchronous
methods of SDK objects. Each may throw. -/
structure Callees where
  initInMemoryDataStorageAndWallets : Ref → JS Wallets
  initCircuitStorage : String → JS FSCircuitStorage
  initProofService :
    IdentityWallet → CredentialWallet → EthStateStorage → FSCircuitStorage → JS ProofService
  createIdentity : IdentityWallet → IdentityCreationOptions → JS (DID × W3CCredential)
  loadCircuitData : FSCircuitStorage → String → JS CircuitData
  initPackageManager : CircuitData → JSFunction → JSFunction → JS PackageManager
  handleAuthorizationRequest : AuthHandler → DID → ProtocolMessage → JS AuthHandlerResponse

/-- The text `console.error` prints for a thrown value. -/
def errorText : JSError → String
  | .MalformedMessageError => "MalformedMessageError"
  | .UnsupportedAlgorithmError => "UnsupportedAlgorithmError"
  | .UnregisteredStrategyError => "UnregisteredStrategyError"
  | .CircuitDataUnavailableError => "CircuitDataUnavailableError"
  | .ProofGenerationError => "ProofGenerationError"
  | .ProofVerificationError => "ProofVerificationError"
  | .RevokedCredentialError => "RevokedCredentialError"
  | .StateVerificationError => "StateVerificationError"
  | .ResolutionUnavailableError => "ResolutionUnavailableError"
  | .KeyNotFoundError => "KeyNotFoundError"
  | .UnsupportedKeyTypeError => "UnsupportedKeyTypeError"
  | .DuplicateProviderError => "DuplicateProviderError"
  | .TreeDepthExceededError => "TreeDepthExceededError"
  | .TypeError msg => "TypeError: " ++ msg
  | .other msg => msg

/-- Source: the literal `defaultIdentityCreationOptions`, lines 44-52 (`core.DidMethod`,
`core.Blockchain` and `core.NetworkId` are constants of the SDK). -/
def defaultIdentityCreationOptions : IdentityCreationOptions :=
  { method := "polygonid",
    blockchain := "polygon",
    networkId := "amoy",
    revocationOpts :=
      { type := CredentialStatusType.Iden3ReverseSparseMerkleTreeProof,
        id := RHS_URL } }

/-- Source: line 69. -/
def messageId : String := "fe6354fe-3db2-48c2-a779-e39c2dda8d90"

/-- Source: the literal `authRequest`, lines 71-82; `issuerDID` is `issuerDID.string()`. -/
def authRequest (issuerDID : String) : ProtocolMessage :=
  { id := some messageId,
    thid := some messageId,
    typ := some MediaType.PlainMessage,
    «from» := some issuerDID,
    type := some AUTHORIZATION_REQUEST_MESSAGE_TYPE,
    «to» := none,
    body := some
      { callbackUrl := some "http://localhost:8080/callback",
        message := some "Authenticate to access the portal",
        reason := some "Basic authentication request",
        scope := none } }

/-- Source: the line printed last by a run without error, line 120. -/
def completionMessage : Event :=
  Event.log ["=== Authentication Flow Completed Successfully ==="]

/-- Source: `main()`, lines 25-126. `CIRCUITS_PATH` is the module constant of line 23,
computed from the directory of the script. -/
def main (CIRCUITS_PATH : String) (c : Callees) : Script Unit := do
  try
    emit (.log ["1. Initializing Polygon ID SDK..."])
    let config ← liftJS (allocObj
      [("rpcUrl", .str RPC_URL), ("contractAddress", .str CONTRACT_ADDRESS),
       ("chainId", .num CHAIN_ID)])
    let wallets ← invoke (.initInMemoryDataStorageAndWallets config)
      (c.initInMemoryDataStorageAndWallets config)
    let dataStorage := wallets.dataStorage
    let credentialWallet := wallets.credentialWallet
    let identityWallet := wallets.identityWallet
    emit (.log ["-> Initializing Circuit Storage and Proof Service..."])
    let circuitStorage ← invoke (.initCircuitStorage CIRCUITS_PATH)
      (c.initCircuitStorage CIRCUITS_PATH)
    let proofService ←
      invoke (.initProofService identityWallet credentialWallet dataStorage.states circuitStorage)
        (c.initProofService identityWallet credentialWallet dataStorage.states circuitStorage)
    emit (.log ["\n2. Creating Identity..."])
    let user ← invoke (.createIdentity identityWallet defaultIdentityCreationOptions)
      (c.createIdentity identityWallet defaultIdentityCreationOptions)
    let did := user.1
    emit (.log ["\n3. Retrieving Identifier (DID)..."])
    let identifier := did.string
    emit (.log ["-> User Identity DID:", identifier])
    emit (.log ["-> Creating Issuer Identity..."])
    let issuer ← invoke (.createIdentity identityWallet defaultIdentityCreationOptions)
      (c.createIdentity identityWallet defaultIdentityCreationOptions)
    let issuerDID := issuer.1
    emit (.log ["-> Issuer Identity DID:", issuerDID.string])
    emit (.log ["\n4. Obtaining an iden3Message from an Issuer..."])
    let authRawRequest := authRequest issuerDID.string
    emit (.log ["-> Created iden3Message (Authorization Request)"])
    emit (.log ["\n5. Authenticating Identity..."])
    let authV2Data ←
      try
        let data ← invoke (.loadCircuitData circuitStorage CircuitId.AuthV2)
          (c.loadCircuitData circuitStorage CircuitId.AuthV2)
        emit (.log ["-> AuthV2 Circuit Data loaded correctly."])
        pure data
      catch err =>
        emit (.logError ["-> Failed to load AuthV2 circuit data. Make sure circuits are downloaded into the /circuits folder."])
        throw err
    let packageManager ←
      invoke
        (.initPackageManager authV2Data
          (.boundMethod "generateAuthV2Inputs" proofService)
          (.boundMethod "verifyState" proofService))
        (c.initPackageManager authV2Data
          (.boundMethod "generateAuthV2Inputs" proofService)
          (.boundMethod "verifyState" proofService))
    let authHandler : AuthHandler := { id := ← liftJS newId, packageManager, proofService }
    emit (.log ["-> Generating ZKP Authorization Response message by authenticating against the request..."])
    let authHandlerResponse ←
      invoke (.handleAuthorizationRequest authHandler did authRawRequest)
        (c.handleAuthorizationRequest authHandler did authRawRequest)
    emit (.log ["\n-> Authentication Response fully generated!"])
    emit (.log ["-> Generated Token Length:", toString authHandlerResponse.json.length, "bytes"])
    emit (.log ["\n6. Removing Identity (Conceptual)..."])
    emit (.log ["-> Identity removal generally involves deleting keys from the KeyStore (KMS)"])
    emit (.log ["   and clearing associated data from the data storage layers."])
    emit (.log ["-> Done implicitly here as the process will exit and wipe InMemory storages.\n"])
    emit completionMessage
  catch error =>
    emit (.logError ["Error in authentication flow:", errorText error])
    emit (.processExit 1)

/-- The asynchronous methods of SDK objects that `main` awaits: external collaborators,
whose behaviour is a parameter. -/
structure SDK where
  createIdentity : IdentityWallet → IdentityCreationOptions → JS (DID × W3CCredential)
  loadCircuitData : FSCircuitStorage → String → JS CircuitData
  handleAuthorizationRequest : AuthHandler → DID → ProtocolMessage → JS AuthHandlerResponse

/-- The callees of `main` in the program: the functions of `./walletSetup` as defined
above, and the methods of the SDK. -/
def callees (defaultEthConnectionConfig : Ref) (sdk : SDK) : Callees :=
  { initInMemoryDataStorageAndWallets :=
      initInMemoryDataStorageAndWallets defaultEthConnectionConfig,
    initCircuitStorage := initCircuitStorage,
    initProofService := initProofService,
    createIdentity := sdk.createIdentity,
    loadCircuitData := sdk.loadCircuitData,
    initPackageManager := initPackageManager,
    handleAuthorizationRequest := sdk.handleAuthorizationRequest }

/-- What a run of a script adds to the observations, from a world and an empty record. -/
def observe (x : Script Unit) (w : World) : List Event :=
  (x { world := w, out := [] }).2.out

/-- A sample SDK: the first identity created is the user, the second the issuer; circuit
data are loaded unless `failLoad`; the handler answers with a fixed token. -/
def sampleSDK (failLoad : Bool) : SDK :=
  { createIdentity := fun _ _ w =>
      (Except.ok (⟨if w.ext = 0 then "did:user" else "did:issuer"⟩, ⟨"genesis"⟩),
        { w with ext := w.ext + 1 }),
    loadCircuitData := fun _ circuitId w =>
      if failLoad then (Except.error JSError.CircuitDataUnavailableError, w)
      else (Except.ok ⟨circuitId, some [0], some [1], some [2]⟩, w),
    handleAuthorizationRequest := fun _ _ _ w => (Except.ok ⟨"token"⟩, w) }

/-- A sample world: `defaultEthConnectionConfig` at address 0, with two properties. -/
def sampleWorld : World :=
  { heap := [[("url", .str "http://localhost:8545"), ("defaultGasLimit", .num 600000)]],
    nextId := 0,
    ext := 0 }

/-- A sample world with two objects: `defaultEthConnectionConfig` at address 0 and, at
address 1, a `config` that defines `rpcUrl` and `contractAddress` and leaves `chainId`
undefined. -/
def sampleConfigWorld : World :=
  { heap :=
      [[("url", .str "http://localhost:8545"), ("chainId", .num 1),
        ("defaultGasLimit", .num 600000)],
       [("rpcUrl", .str "https://rpc-amoy.polygon.technology"),
        ("contractAddress", .str "0x1a4cC30f2aA0377b0c3bc9848766D90cb4404124")]],
    nextId := 0,
    ext := 0 }

/-- A sample world holding `defaultEthConnectionConfig` at address 0 and, at address 1,
the `config` of `main` (line 29). -/
def sampleMainWorld : World :=
  { heap :=
      [[("url", .str "http://localhost:8545"), ("chainId", .num 1),
        ("defaultGasLimit", .num 600000)],
       [("rpcUrl", .str RPC_URL), ("contractAddress", .str CONTRACT_ADDRESS),
        ("chainId", .num CHAIN_ID)]],
    nextId := 0,
    ext := 0 }

/-- A sample data storage, as a caller of `initCredentialWallet` may pass it. -/
def sampleDataStorage : DataStorage :=
  { id := 100,
    credential := { id := 101, source := { id := 102 } },
    identity := { id := 103, identities := { id := 104 }, profiles := { id := 105 } },
    mt := { id := 106, depth := 40 },
    states := { id := 107, conf := 0 } }

/-- A sample credential wallet, with an empty resolver registry. -/
def sampleCredentialWallet : CredentialWallet :=
  { id := 108, storage := sampleDataStorage, resolvers := { id := 109, resolvers := [] } }

/-- A sample identity wallet, with an empty KMS and an empty publisher registry. -/
def sampleIdentityWallet : IdentityWallet :=
  { id := 110,
    kms := { id := 111, registry := [] },
    storage := sampleDataStorage,
    credentialWallet := sampleCredentialWallet,
    opts := { credentialStatusPublisherRegistry := { id := 112, publishers := [] } } }

/-! ## Running computations -/

theorem bind_apply {σ α β : Type} (x : Comp σ α) (f : α → Comp σ β) (s : σ) :
    (x >>= f) s = match x s with
      | (Except.ok a, s1) => f a s1
      | (Except.error e, s1) => (Except.error e, s1) := rfl

theorem pure_apply {σ α : Type} (a : α) (s : σ) :
    (pure a : Comp σ α) s = (Except.ok a, s) := rfl

theorem throw_apply {σ α : Type} (e : JSError) (s : σ) :
    (throw e : Comp σ α) s = (Except.error e, s) := rfl

theorem tryCatch_apply {σ α : Type} (x : Comp σ α) (h : JSError → Comp σ α) (s : σ) :
    (tryCatch x h) s = match x s with
      | (Except.ok a, s1) => (Except.ok a, s1)
      | (Except.error e, s1) => h e s1 := rfl

theorem emit_apply (e : Event) (p : Process) :
    emit e p = (Except.ok (), { p with out := p.out ++ [e] }) := rfl

theorem liftJS_apply {α : Type} (x : JS α) (p : Process) :
    liftJS x p = ((x p.world).1, { p with world := (x p.world).2 }) := rfl

theorem invoke_apply {α : Type} (c : Call) (x : JS α) (p : Process) :
    invoke c x p = match x p.world with
      | (Except.ok a, w) =>
        (Except.ok a, { world := w, out := p.out ++ [Event.call c, Event.returned c.name] })
      | (Except.error e, w) =>
        (Except.error e, { world := w, out := p.out ++ [Event.call c, Event.threw c.name e] }) :=
  rfl

/-! ## Closed forms of the functions of `walletSetup.js` -/

theorem ethStateStorage_new_ok (conf : Ref) (w : World)
    (h : ethConfigError (w.heap.getD conf []) = none) :
    EthStateStorage.new conf w =
      (Except.ok { id := w.nextId, conf := conf }, { w with nextId := w.nextId + 1 }) := by
  simp only [EthStateStorage.new, bind_apply, deref]
  rw [h]
  rfl

theorem ethStateStorage_new_error (conf : Ref) (w : World) (e : JSError)
    (h : ethConfigError (w.heap.getD conf []) = some e) :
    EthStateStorage.new conf w = (Except.error e, w) := by
  simp only [EthStateStorage.new, bind_apply, deref]
  rw [h]
  rfl

theorem onChainResolver_new_ok (conf : Ref) (w : World)
    (h : ethConfigError (w.heap.getD conf []) = none) :
    OnChainResolver.new [conf] w =
      (Except.ok { id := w.nextId, configs := [conf] }, { w with nextId := w.nextId + 1 }) := by
  simp only [OnChainResolver.new, bind_apply, deref]
  rw [h]
  rfl

theorem onChainResolver_new_error (conf : Ref) (w : World) (e : JSError)
    (h : ethConfigError (w.heap.getD conf []) = some e) :
    OnChainResolver.new [conf] w = (Except.error e, w) := by
  simp only [OnChainResolver.new, bind_apply, deref]
  rw [h]
  rfl

theorem getD_concat_length (l : List JSObject) (o : JSObject) :
    (l ++ [o]).getD l.length [] = o := by
  rw [List.getD_append_right _ _ _ _ (le_refl _)]
  simp

theorem initInMemoryDataStorage_ok (d config : Ref) (w : World)
    (h : ethConfigError (confLiteral (w.heap.getD d []) (w.heap.getD config [])) = none) :
    initInMemoryDataStorage d config w =
      (Except.ok
        { id := w.nextId + 7,
          credential := { id := w.nextId + 1, source := { id := w.nextId } },
          identity :=
            { id := w.nextId + 4, identities := { id := w.nextId + 2 },
              profiles := { id := w.nextId + 3 } },
          mt := { id := w.nextId + 5, depth := 40 },
          states := { id := w.nextId + 6, conf := w.heap.length } },
       { heap := w.heap ++ [confLiteral (w.heap.getD d []) (w.heap.getD config [])],
         nextId := w.nextId + 8, ext := w.ext }) := by
  simp only [initInMemoryDataStorage, ethConnectionConfig, bind_apply, pure_apply, deref,
    allocObj, newId]
  rw [ethStateStorage_new_ok _ _ (by rw [getD_concat_length]; exact h)]

theorem initInMemoryDataStorage_error (d config : Ref) (w : World) (e : JSError)
    (h : ethConfigError (confLiteral (w.heap.getD d []) (w.heap.getD config [])) = some e) :
    initInMemoryDataStorage d config w =
      (Except.error e,
       { heap := w.heap ++ [confLiteral (w.heap.getD d []) (w.heap.getD config [])],
         nextId := w.nextId + 6, ext := w.ext }) := by
  simp only [initInMemoryDataStorage, ethConnectionConfig, bind_apply, pure_apply, deref,
    allocObj, newId]
  rw [ethStateStorage_new_error _ _ e (by rw [getD_concat_length]; exact h)]

theorem initCredentialWallet_ok (d : Ref) (ds : DataStorage) (config : Ref) (w : World)
    (h : ethConfigError (confLiteral (w.heap.getD d []) (w.heap.getD config [])) = none) :
    initCredentialWallet d ds config w =
      (Except.ok
        { id := w.nextId + 5, storage := ds,
          resolvers :=
            { id := w.nextId,
              resolvers :=
                [(CredentialStatusType.SparseMerkleTreeProof, .issuer { id := w.nextId + 1 }),
                 (CredentialStatusType.Iden3ReverseSparseMerkleTreeProof,
                   .rhs { id := w.nextId + 2, state := ds.states }),
                 (CredentialStatusType.Iden3OnchainSparseMerkleTreeProof2023,
                   .onChain { id := w.nextId + 3, configs := [w.heap.length] }),
                 (CredentialStatusType.Iden3commRevocationStatusV1,
                   .agent { id := w.nextId + 4 })] } },
       { heap := w.heap ++ [confLiteral (w.heap.getD d []) (w.heap.getD config [])],
         nextId := w.nextId + 6, ext := w.ext }) := by
  simp only [initCredentialWallet, ethConnectionConfig, bind_apply, pure_apply, deref,
    allocObj, newId]
  rw [onChainResolver_new_ok _ _ (by rw [getD_concat_length]; exact h)]
  rfl

theorem initCredentialWallet_error (d : Ref) (ds : DataStorage) (config : Ref) (w : World)
    (e : JSError)
    (h : ethConfigError (confLiteral (w.heap.getD d []) (w.heap.getD config [])) = some e) :
    initCredentialWallet d ds config w =
      (Except.error e,
       { heap := w.heap ++ [confLiteral (w.heap.getD d []) (w.heap.getD config [])],
         nextId := w.nextId + 3, ext := w.ext }) := by
  simp only [initCredentialWallet, ethConnectionConfig, bind_apply, pure_apply, deref,
    allocObj, newId]
  rw [onChainResolver_new_error _ _ e (by rw [getD_concat_length]; exact h)]

theorem initInMemoryDataStorageAndWallets_ok (d config : Ref) (w : World)
    (h1 : ethConfigError (confLiteral (w.heap.getD d []) (w.heap.getD config [])) = none)
    (h2 : ethConfigError
      (confLiteral
        ((w.heap ++ [confLiteral (w.heap.getD d []) (w.heap.getD config [])]).getD d [])
        ((w.heap ++ [confLiteral (w.heap.getD d []) (w.heap.getD config [])]).getD config []))
      = none) :
    initInMemoryDataStorageAndWallets d config w =
      (let conf1 := confLiteral (w.heap.getD d []) (w.heap.getD config [])
       let heap1 := w.heap ++ [conf1]
       let conf2 := confLiteral (heap1.getD d []) (heap1.getD config [])
       let dataStorage : DataStorage :=
        { id := w.nextId + 7,
          credential := { id := w.nextId + 1, source := { id := w.nextId } },
          identity :=
            { id := w.nextId + 4, identities := { id := w.nextId + 2 },
              profiles := { id := w.nextId + 3 } },
          mt := { id := w.nextId + 5, depth := 40 },
          states := { id := w.nextId + 6, conf := w.heap.length } }
       let credentialWallet : CredentialWallet :=
        { id := w.nextId + 13, storage := dataStorage,
          resolvers :=
            { id := w.nextId + 8,
              resolvers :=
                [(CredentialStatusType.SparseMerkleTreeProof, .issuer { id := w.nextId + 9 }),
                 (CredentialStatusType.Iden3ReverseSparseMerkleTreeProof,
                   .rhs { id := w.nextId + 10, state := dataStorage.states }),
                 (CredentialStatusType.Iden3OnchainSparseMerkleTreeProof2023,
                   .onChain { id := w.nextId + 11, configs := [heap1.length] }),
                 (CredentialStatusType.Iden3commRevocationStatusV1,
                   .agent { id := w.nextId + 12 })] } }
       let kms : KMS :=
        { id := w.nextId + 16,
          registry :=
            [(KmsKeyType.BabyJubJub,
              { id := w.nextId + 15, keyType := KmsKeyType.BabyJubJub,
                keyStore := { id := w.nextId + 14 } })] }
       (Except.ok
        { dataStorage, credentialWallet,
          identityWallet :=
            { id := w.nextId + 19, kms, storage := dataStorage, credentialWallet,
              opts :=
                { credentialStatusPublisherRegistry :=
                    { id := w.nextId + 17,
                      publishers :=
                        [(CredentialStatusType.Iden3ReverseSparseMerkleTreeProof,
                          { id := w.nextId + 18 })] } } },
          kms },
        { heap := heap1 ++ [conf2], nextId := w.nextId + 20, ext := w.ext })) := by
  simp only [initInMemoryDataStorageAndWallets, bind_apply]
  rw [initInMemoryDataStorage_ok d config w h1]
  simp only []
  rw [initCredentialWallet_ok d _ config _ h2]
  rfl

theorem initInMemoryDataStorageAndWallets_error_first (d config : Ref) (w : World)
    (e : JSError)
    (h1 : ethConfigError (confLiteral (w.heap.getD d []) (w.heap.getD config [])) = some e) :
    (initInMemoryDataStorageAndWallets d config w).1 = Except.error e := by
  simp only [initInMemoryDataStorageAndWallets, bind_apply]
  rw [initInMemoryDataStorage_error d config w e h1]

theorem initInMemoryDataStorageAndWallets_error_second (d config : Ref) (w : World)
    (e : JSError)
    (h1 : ethConfigError (confLiteral (w.heap.getD d []) (w.heap.getD config [])) = none)
    (h2 : ethConfigError
      (confLiteral
        ((w.heap ++ [confLiteral (w.heap.getD d []) (w.heap.getD config [])]).getD d [])
        ((w.heap ++ [confLiteral (w.heap.getD d []) (w.heap.getD config [])]).getD config []))
      = some e) :
    (initInMemoryDataStorageAndWallets d config w).1 = Except.error e := by
  simp only [initInMemoryDataStorageAndWallets, bind_apply]
  rw [initInMemoryDataStorage_ok d config w h1]
  simp only []
  rw [initCredentialWallet_error d _ config _ e h2]

theorem ethConfigError_isTypeError (o : JSObject) (e : JSError)
    (h : ethConfigError o = some e) : ∃ msg, e = JSError.TypeError msg := by
  unfold ethConfigError at h
  split at h
  · cases h; exact ⟨_, rfl⟩
  · cases h; exact ⟨_, rfl⟩
  · split at h
    · cases h
    · cases h; exact ⟨_, rfl⟩

theorem ethConfigError_of_strings (o : JSObject) (u a : String)
    (hu : getProp o "url" = JSValue.str u) (ha : getProp o "contractAddress" = JSValue.str a) :
    ethConfigError o = none := by
  simp [ethConfigError, hu, ha]

/-! ## Lemmas on maps and objects -/

theorem JSMap.get_set {κ ν : Type} [DecidableEq κ] (m : JSMap κ ν) (k k1 : κ) (v : ν) :
    JSMap.get (JSMap.set m k v) k1 = if k = k1 then some v else JSMap.get m k1 := by
  induction m with
  | nil => simp [JSMap.set, JSMap.get]
  | cons e rest ih =>
    obtain ⟨k0, v0⟩ := e
    by_cases h0 : k0 = k
    · subst h0
      by_cases h1 : k0 = k1 <;> simp [JSMap.set, JSMap.get, h1]
    · by_cases h1 : k0 = k1
      · subst h1
        simp [JSMap.set, JSMap.get, h0, Ne.symm h0]
      · simp [JSMap.set, JSMap.get, h0, h1, ih]

theorem getProp_append_singleton (o : JSObject) (k k1 : String) (v : JSValue) :
    getProp (o ++ [(k, v)]) k1 = if k = k1 then v else getProp o k1 := by
  by_cases h : k = k1 <;> simp [getProp, List.reverse_append, List.find?_cons, h]

theorem getProp_confLiteral (defaults config : JSObject) (k : String) :
    getProp (confLiteral defaults config) k =
      if k = "chainId" then getProp config "chainId"
      else if k = "url" then getProp config "rpcUrl"
      else if k = "contractAddress" then getProp config "contractAddress"
      else getProp defaults k := by
  have h : confLiteral defaults config =
      ((defaults ++ [("contractAddress", getProp config "contractAddress")]) ++
        [("url", getProp config "rpcUrl")]) ++ [("chainId", getProp config "chainId")] := by
    simp [confLiteral]
  rw [h, getProp_append_singleton, getProp_append_singleton, getProp_append_singleton]
  by_cases h1 : k = "chainId"
  · subst h1; simp
  · by_cases h2 : k = "url"
    · subst h2; simp
    · by_cases h3 : k = "contractAddress"
      · subst h3; simp
      · simp [h1, h2, h3, Ne.symm h1, Ne.symm h2, Ne.symm h3]

theorem confLiteral_accepted (defaults config : JSObject) (u a : String)
    (hu : getProp config "rpcUrl" = JSValue.str u)
    (ha : getProp config "contractAddress" = JSValue.str a) :
    ethConfigError (confLiteral defaults config) = none := by
  apply ethConfigError_of_strings _ u a
  · rw [getProp_confLiteral, ← hu]; simp
  · rw [getProp_confLiteral, ← ha]; simp

theorem confLiteral_refused (defaults config : JSObject)
    (ha : getProp config "contractAddress" = JSValue.undefined) :
    ∃ e, ethConfigError (confLiteral defaults config) = some e := by
  have hc : getProp (confLiteral defaults config) "contractAddress" = JSValue.undefined := by
    rw [getProp_confLiteral, ← ha]; simp
  unfold ethConfigError
  split
  · exact ⟨_, rfl⟩
  · exact ⟨_, rfl⟩
  · rw [hc]
    exact ⟨_, rfl⟩

theorem getD_concat_of_lt (l : List JSObject) (o : JSObject) (i : Nat) (h : i < l.length) :
    (l ++ [o]).getD i [] = l.getD i [] :=
  List.getD_append _ _ _ _ h

/-! ## The resolver registry -/

/-- C1: for every data storage, configuration and world, whenever `initCredentialWallet`
returns a wallet, its resolver registry holds exactly four registrations, under the four
pairwise distinct tags, each tag bound to the resolver constructed for it (issuer, RHS on
`dataStorage.states`, on-chain on the new `conf`, agent), so that no registration
replaced an earlier one; a tag is registered only if it is one of the four, and then its
resolver implements the matching strategy. The function does return a wallet whenever
`config.rpcUrl` and `config.contractAddress` are strings, as in `main`; when `config`
leaves `contractAddress` undefined it throws a `TypeError` and builds no registry. -/
theorem initCredentialWallet_registers_four_strategies
    (d : Ref) (dataStorage : DataStorage) (config : Ref) (w : World) :
    (∀ cw w1, initCredentialWallet d dataStorage config w = (Except.ok cw, w1) →
      cw.resolvers.resolvers.length = 4 ∧
      JSMap.keys cw.resolvers.resolvers =
        [CredentialStatusType.SparseMerkleTreeProof,
         CredentialStatusType.Iden3ReverseSparseMerkleTreeProof,
         CredentialStatusType.Iden3OnchainSparseMerkleTreeProof2023,
         CredentialStatusType.Iden3commRevocationStatusV1] ∧
      (JSMap.keys cw.resolvers.resolvers).Nodup ∧
      cw.resolvers.get CredentialStatusType.SparseMerkleTreeProof =
        some (.issuer { id := w.nextId + 1 }) ∧
      cw.resolvers.get CredentialStatusType.Iden3ReverseSparseMerkleTreeProof =
        some (.rhs { id := w.nextId + 2, state := dataStorage.states }) ∧
      cw.resolvers.get CredentialStatusType.Iden3OnchainSparseMerkleTreeProof2023 =
        some (.onChain { id := w.nextId + 3, configs := [w.heap.length] }) ∧
      cw.resolvers.get CredentialStatusType.Iden3commRevocationStatusV1 =
        some (.agent { id := w.nextId + 4 }) ∧
      (∀ tag r, cw.resolvers.get tag = some r →
        (tag = CredentialStatusType.SparseMerkleTreeProof ∧
          r.strategy = Strategy.issuerHosted) ∨
        (tag = CredentialStatusType.Iden3ReverseSparseMerkleTreeProof ∧
          r.strategy = Strategy.reverseHostedService) ∨
        (tag = CredentialStatusType.Iden3OnchainSparseMerkleTreeProof2023 ∧
          r.strategy = Strategy.onChain) ∨
        (tag = CredentialStatusType.Iden3commRevocationStatusV1 ∧
          r.strategy = Strategy.agent))) ∧
    (∀ u a, getProp (w.heap.getD config []) "rpcUrl" = JSValue.str u →
      getProp (w.heap.getD config []) "contractAddress" = JSValue.str a →
      ∃ cw w1, initCredentialWallet d dataStorage config w = (Except.ok cw, w1)) ∧
    (getProp (w.heap.getD config []) "contractAddress" = JSValue.undefined →
      ∃ msg, (initCredentialWallet d dataStorage config w).1 =
        Except.error (JSError.TypeError msg)) := by
  refine ⟨?_, ?_, ?_⟩
  · intro cw w1 hrun
    cases hacc : ethConfigError (confLiteral (w.heap.getD d []) (w.heap.getD config [])) with
    | some e =>
      rw [initCredentialWallet_error d dataStorage config w e hacc] at hrun
      simp at hrun
    | none =>
      rw [initCredentialWallet_ok d dataStorage config w hacc] at hrun
      simp only [Prod.mk.injEq, Except.ok.injEq] at hrun
      obtain ⟨rfl, _⟩ := hrun
      refine ⟨rfl, rfl, ?_, rfl, rfl, rfl, rfl, ?_⟩
      · show ([CredentialStatusType.SparseMerkleTreeProof,
              CredentialStatusType.Iden3ReverseSparseMerkleTreeProof,
              CredentialStatusType.Iden3OnchainSparseMerkleTreeProof2023,
              CredentialStatusType.Iden3commRevocationStatusV1] : List String).Nodup
        decide
      · intro tag r h
        simp only [CredentialStatusResolverRegistry.get, JSMap.get] at h
        split_ifs at h with h1 h2 h3 h4
        · cases h; exact Or.inl ⟨h1.symm, rfl⟩
        · cases h; exact Or.inr (Or.inl ⟨h2.symm, rfl⟩)
        · cases h; exact Or.inr (Or.inr (Or.inl ⟨h3.symm, rfl⟩))
        · cases h; exact Or.inr (Or.inr (Or.inr ⟨h4.symm, rfl⟩))
  · intro u a hu ha
    exact ⟨_, _, initCredentialWallet_ok d dataStorage config w
      (confLiteral_accepted _ _ u a hu ha)⟩
  · intro hundef
    obtain ⟨e, he⟩ := confLiteral_refused (w.heap.getD d []) (w.heap.getD config []) hundef
    obtain ⟨msg, rfl⟩ := ethConfigError_isTypeError _ _ he
    exact ⟨msg, by rw [initCredentialWallet_error d dataStorage config w _ he]⟩

/-- C2: for every data storage, configuration, world and resolver backend, on every
registry `initCredentialWallet` returns, `resolve` on a status whose tag is none of the
four registered tags fails with `UnregisteredStrategyError`: no resolver is found for the
tag, and the backend is not consulted. Such a registry is returned whenever
`config.rpcUrl` and `config.contractAddress` are strings, as in `main`. -/
theorem resolve_unregistered_tag_fails
    (d : Ref) (dataStorage : DataStorage) (config : Ref) (w : World)
    (backend : CredentialStatusResolver → CredentialStatus → Except JSError RevocationStatus)
    (status : CredentialStatus)
    (h1 : status.type ≠ CredentialStatusType.SparseMerkleTreeProof)
    (h2 : status.type ≠ CredentialStatusType.Iden3ReverseSparseMerkleTreeProof)
    (h3 : status.type ≠ CredentialStatusType.Iden3OnchainSparseMerkleTreeProof2023)
    (h4 : status.type ≠ CredentialStatusType.Iden3commRevocationStatusV1) :
    (∀ cw w1, initCredentialWallet d dataStorage config w = (Except.ok cw, w1) →
      cw.resolvers.get status.type = none ∧
      cw.resolvers.resolve backend status =
        Except.error JSError.UnregisteredStrategyError) ∧
    (∀ u a, getProp (w.heap.getD config []) "rpcUrl" = JSValue.str u →
      getProp (w.heap.getD config []) "contractAddress" = JSValue.str a →
      ∃ cw w1, initCredentialWallet d dataStorage config w = (Except.ok cw, w1) ∧
        cw.resolvers.get status.type = none ∧
        cw.resolvers.resolve backend status =
          Except.error JSError.UnregisteredStrategyError) := by
  have hall : ∀ cw w1, initCredentialWallet d dataStorage config w = (Except.ok cw, w1) →
      cw.resolvers.get status.type = none ∧
      cw.resolvers.resolve backend status =
        Except.error JSError.UnregisteredStrategyError := by
    intro cw w1 hrun
    have hget : cw.resolvers.get status.type = none := by
      cases hacc : ethConfigError (confLiteral (w.heap.getD d []) (w.heap.getD config [])) with
      | some e =>
        rw [initCredentialWallet_error d dataStorage config w e hacc] at hrun
        simp at hrun
      | none =>
        rw [initCredentialWallet_ok d dataStorage config w hacc] at hrun
        simp only [Prod.mk.injEq, Except.ok.injEq] at hrun
        obtain ⟨rfl, _⟩ := hrun
        simp [CredentialStatusResolverRegistry.get, JSMap.get, Ne.symm h1, Ne.symm h2,
          Ne.symm h3, Ne.symm h4]
    refine ⟨hget, ?_⟩
    unfold CredentialStatusResolverRegistry.resolve
    rw [hget]
  refine ⟨hall, ?_⟩
  intro u a hu ha
  have hrun := initCredentialWallet_ok d dataStorage config w
    (confLiteral_accepted _ _ u a hu ha)
  exact ⟨_, _, hrun, hall _ _ hrun⟩

/-! ## The key management service -/

/-- C6: for every configuration and world, `initInMemoryDataStorageAndWallets` does not
fail with `DuplicateProviderError`. Whenever it returns, the KMS it returns was
constructed in this call with an empty registry and holds exactly one provider, the
`BjjProvider` registered for `BabyJubJub`, no key type occurring twice, and it is the
instance the returned identity wallet was constructed with. It does return whenever
`config` is an object whose `rpcUrl` and `contractAddress` are strings, as in `main`; and
a registration on a KMS with an empty registry never fails. -/
theorem initInMemoryDataStorageAndWallets_registers_one_provider
    (d config : Ref) (w : World) :
    (initInMemoryDataStorageAndWallets d config w).1 ≠
      Except.error JSError.DuplicateProviderError ∧
    (∀ wallets w1, initInMemoryDataStorageAndWallets d config w = (Except.ok wallets, w1) →
      w.nextId ≤ wallets.kms.id ∧ wallets.kms.id < w1.nextId ∧
      wallets.kms.registry =
        [(KmsKeyType.BabyJubJub,
          { id := w.nextId + 15, keyType := KmsKeyType.BabyJubJub,
            keyStore := { id := w.nextId + 14 } })] ∧
      (JSMap.keys wallets.kms.registry).Nodup ∧
      wallets.identityWallet.kms = wallets.kms) ∧
    (∀ u a, config < w.heap.length →
      getProp (w.heap.getD config []) "rpcUrl" = JSValue.str u →
      getProp (w.heap.getD config []) "contractAddress" = JSValue.str a →
      ∃ wallets w1,
        initInMemoryDataStorageAndWallets d config w = (Except.ok wallets, w1)) ∧
    (∀ id keyType provider w2,
      KMS.registerKeyProvider { id := id, registry := [] } keyType provider w2 =
        (Except.ok { id := id, registry := [(keyType, provider)] }, w2)) := by
  have hcases :
      (∃ e msg, e = JSError.TypeError msg ∧
        (initInMemoryDataStorageAndWallets d config w).1 = Except.error e) ∨
      (ethConfigError (confLiteral (w.heap.getD d []) (w.heap.getD config [])) = none ∧
        ethConfigError
          (confLiteral
            ((w.heap ++ [confLiteral (w.heap.getD d []) (w.heap.getD config [])]).getD d [])
            ((w.heap ++ [confLiteral (w.heap.getD d []) (w.heap.getD config [])]).getD
              config [])) = none) := by
    cases h1 : ethConfigError (confLiteral (w.heap.getD d []) (w.heap.getD config [])) with
    | some e =>
      obtain ⟨msg, rfl⟩ := ethConfigError_isTypeError _ _ h1
      exact Or.inl ⟨_, msg, rfl, initInMemoryDataStorageAndWallets_error_first d config w _ h1⟩
    | none =>
      cases h2 : ethConfigError
          (confLiteral
            ((w.heap ++ [confLiteral (w.heap.getD d []) (w.heap.getD config [])]).getD d [])
            ((w.heap ++ [confLiteral (w.heap.getD d []) (w.heap.getD config [])]).getD
              config [])) with
      | some e =>
        obtain ⟨msg, rfl⟩ := ethConfigError_isTypeError _ _ h2
        exact Or.inl
          ⟨_, msg, rfl, initInMemoryDataStorageAndWallets_error_second d config w _ h1 h2⟩
      | none => exact Or.inr ⟨rfl, rfl⟩
  refine ⟨?_, ?_, ?_, ?_⟩
  · rcases hcases with ⟨e, msg, rfl, he⟩ | ⟨h1, h2⟩
    · rw [he]
      simp
    · rw [initInMemoryDataStorageAndWallets_ok d config w h1 h2]
      simp
  · intro wallets w1 hrun
    rcases hcases with ⟨e, msg, rfl, he⟩ | ⟨h1, h2⟩
    · rw [hrun] at he
      simp at he
    · rw [initInMemoryDataStorageAndWallets_ok d config w h1 h2] at hrun
      simp only [Prod.mk.injEq, Except.ok.injEq] at hrun
      obtain ⟨rfl, rfl⟩ := hrun
      refine ⟨?_, ?_, rfl, ?_, rfl⟩
      · show w.nextId ≤ w.nextId + 16
        omega
      · show w.nextId + 16 < w.nextId + 20
        omega
      · show ([KmsKeyType.BabyJubJub] : List KmsKeyType).Nodup
        decide
  · intro u a hc hu ha
    refine ⟨_, _, initInMemoryDataStorageAndWallets_ok d config w
      (confLiteral_accepted _ _ u a hu ha) ?_⟩
    rw [getD_concat_of_lt _ _ config hc]
    exact confLiteral_accepted _ _ u a hu ha
  · intro id keyType provider w2
    rfl

/-! ## The Ethereum connection configuration -/

theorem initInMemoryDataStorage_heap (d config : Ref) (w : World) :
    (initInMemoryDataStorage d config w).2.heap =
      w.heap ++ [confLiteral (w.heap.getD d []) (w.heap.getD config [])] ∧
    ∀ ds, (initInMemoryDataStorage d config w).1 = Except.ok ds →
      ds.states.conf = w.heap.length := by
  cases h : ethConfigError (confLiteral (w.heap.getD d []) (w.heap.getD config [])) with
  | some e =>
    rw [initInMemoryDataStorage_error d config w e h]
    exact ⟨rfl, fun ds hds => by simp at hds⟩
  | none =>
    rw [initInMemoryDataStorage_ok d config w h]
    refine ⟨rfl, fun ds hds => ?_⟩
    simp only [Except.ok.injEq] at hds
    rw [← hds]

theorem initCredentialWallet_heap (d : Ref) (dataStorage : DataStorage) (config : Ref)
    (w : World) :
    (initCredentialWallet d dataStorage config w).2.heap =
      w.heap ++ [confLiteral (w.heap.getD d []) (w.heap.getD config [])] ∧
    ∀ cw, (initCredentialWallet d dataStorage config w).1 = Except.ok cw →
      ∃ r, cw.resolvers.get CredentialStatusType.Iden3OnchainSparseMerkleTreeProof2023 =
          some (.onChain r) ∧
        r.configs = [w.heap.length] := by
  cases h : ethConfigError (confLiteral (w.heap.getD d []) (w.heap.getD config [])) with
  | some e =>
    rw [initCredentialWallet_error d dataStorage config w e h]
    exact ⟨rfl, fun cw hcw => by simp at hcw⟩
  | none =>
    rw [initCredentialWallet_ok d dataStorage config w h]
    refine ⟨rfl, fun cw hcw => ?_⟩
    simp only [Except.ok.injEq] at hcw
    rw [← hcw]
    exact ⟨_, rfl, rfl⟩

/-- C10: let `config` and `defaultEthConnectionConfig` be objects of the world. Then
`initInMemoryDataStorage` and, after it, `initCredentialWallet` each build exactly one new
plain object, whether the call goes on to return or to throw; the two objects are at
different addresses and are equal: `url` is `config.rpcUrl`, `contractAddress` is
`config.contractAddress`, `chainId` is `config.chainId`, whatever these are, `undefined`
included, and every other property is that of `defaultEthConnectionConfig`. When the calls
return, these objects are the configuration of the state storage and of the on-chain
resolver. After either call `config` and `defaultEthConnectionConfig` are what they
were, as is every object that existed. -/
theorem ethConnectionConfig_same_in_both (d config : Ref) (w : World)
    (dataStorage : DataStorage) (hd : d < w.heap.length) (hc : config < w.heap.length) :
    ∃ r1 w1 r2 w2,
      initInMemoryDataStorage d config w = (r1, w1) ∧
      initCredentialWallet d dataStorage config w1 = (r2, w2) ∧
      w1.heap = w.heap ++ [confLiteral (w.heap.getD d []) (w.heap.getD config [])] ∧
      w2.heap = w1.heap ++ [confLiteral (w.heap.getD d []) (w.heap.getD config [])] ∧
      w.heap.length ≠ w1.heap.length ∧
      w1.heap.getD w.heap.length [] = w2.heap.getD w1.heap.length [] ∧
      w2.heap.getD w.heap.length [] = w2.heap.getD w1.heap.length [] ∧
      (∀ ds, r1 = Except.ok ds → ds.states.conf = w.heap.length) ∧
      (∀ cw, r2 = Except.ok cw →
        ∃ r, cw.resolvers.get CredentialStatusType.Iden3OnchainSparseMerkleTreeProof2023 =
            some (.onChain r) ∧
          r.configs = [w1.heap.length]) ∧
      getProp (w2.heap.getD w1.heap.length []) "url" =
        getProp (w.heap.getD config []) "rpcUrl" ∧
      getProp (w2.heap.getD w1.heap.length []) "contractAddress" =
        getProp (w.heap.getD config []) "contractAddress" ∧
      getProp (w2.heap.getD w1.heap.length []) "chainId" =
        getProp (w.heap.getD config []) "chainId" ∧
      (∀ k, k ≠ "url" → k ≠ "contractAddress" → k ≠ "chainId" →
        getProp (w2.heap.getD w1.heap.length []) k = getProp (w.heap.getD d []) k) ∧
      w1.heap.getD config [] = w.heap.getD config [] ∧
      w1.heap.getD d [] = w.heap.getD d [] ∧
      w2.heap.getD config [] = w.heap.getD config [] ∧
      w2.heap.getD d [] = w.heap.getD d [] ∧
      w.heap <+: w1.heap ∧ w1.heap <+: w2.heap := by
  have key1 : ∀ r1 w1, initInMemoryDataStorage d config w = (r1, w1) →
      w1.heap = w.heap ++ [confLiteral (w.heap.getD d []) (w.heap.getD config [])] ∧
      ∀ ds, r1 = Except.ok ds → ds.states.conf = w.heap.length := by
    intro r1 w1 h
    have h0 := initInMemoryDataStorage_heap d config w
    rw [h] at h0
    exact h0
  have key2 : ∀ w1 r2 w2, initCredentialWallet d dataStorage config w1 = (r2, w2) →
      w2.heap = w1.heap ++ [confLiteral (w1.heap.getD d []) (w1.heap.getD config [])] ∧
      ∀ cw, r2 = Except.ok cw →
        ∃ r, cw.resolvers.get CredentialStatusType.Iden3OnchainSparseMerkleTreeProof2023 =
            some (.onChain r) ∧
          r.configs = [w1.heap.length] := by
    intro w1 r2 w2 h
    have h0 := initCredentialWallet_heap d dataStorage config w1
    rw [h] at h0
    exact h0
  rcases hrun1 : initInMemoryDataStorage d config w with ⟨r1, w1⟩
  obtain ⟨hh1, hds⟩ := key1 r1 w1 hrun1
  rcases hrun2 : initCredentialWallet d dataStorage config w1 with ⟨r2, w2⟩
  obtain ⟨hh2, hcw⟩ := key2 w1 r2 w2 hrun2
  have hcfg1 : w1.heap.getD config [] = w.heap.getD config [] := by
    rw [hh1]; exact getD_concat_of_lt _ _ _ hc
  have hd1 : w1.heap.getD d [] = w.heap.getD d [] := by
    rw [hh1]; exact getD_concat_of_lt _ _ _ hd
  rw [hcfg1, hd1] at hh2
  have hlen1 : w1.heap.length = w.heap.length + 1 := by rw [hh1]; simp
  have hnew2 : w2.heap.getD w1.heap.length [] =
      confLiteral (w.heap.getD d []) (w.heap.getD config []) := by
    rw [hh2]; exact getD_concat_length _ _
  have hnew1 : w1.heap.getD w.heap.length [] =
      confLiteral (w.heap.getD d []) (w.heap.getD config []) := by
    rw [hh1]; exact getD_concat_length _ _
  have hold2 : ∀ i, i < w1.heap.length → w2.heap.getD i [] = w1.heap.getD i [] := by
    intro i hi
    rw [hh2]; exact getD_concat_of_lt _ _ _ hi
  refine ⟨r1, w1, r2, w2, rfl, hrun2, hh1, hh2, ?_, ?_, ?_, hds, hcw, ?_, ?_, ?_, ?_, hcfg1,
    hd1, ?_, ?_, ?_, ?_⟩
  · omega
  · rw [hnew1, hnew2]
  · rw [hold2 _ (by omega), hnew1, hnew2]
  · rw [hnew2, getProp_confLiteral]; simp
  · rw [hnew2, getProp_confLiteral]; simp
  · rw [hnew2, getProp_confLiteral]; simp
  · intro k h1 h2 h3
    rw [hnew2, getProp_confLiteral]; simp [h1, h2, h3]
  · rw [hold2 _ (by rw [hlen1]; exact Nat.lt_succ_of_lt hc), hcfg1]
  · rw [hold2 _ (by rw [hlen1]; exact Nat.lt_succ_of_lt hd), hd1]
  · exact ⟨_, hh1.symm⟩
  · exact ⟨_, hh2.symm⟩

/-! ## The package manager -/

theorem initPackageManager_run (cd : CircuitData) (f g : JSFunction) (w : World) :
    initPackageManager cd f g w =
      (Except.ok
        { id := w.nextId + 2,
          packers :=
            [(MediaType.ZKPMessage, Packer.zkp
                { id := w.nextId + 3,
                  provingParamsMap :=
                    [(provingMethodGroth16AuthV2Alg,
                      { dataPreparer := { id := w.nextId, fn := f },
                        provingKey := cd.provingKey, wasm := cd.wasm })],
                  verificationParamsMap :=
                    [(provingMethodGroth16AuthV2Alg,
                      { key := cd.verificationKey,
                        verificationFn := { id := w.nextId + 1, fn := g } })] }),
             (MediaType.PlainMessage, Packer.plain { id := w.nextId + 4 })] },
       { heap := w.heap, nextId := w.nextId + 5, ext := w.ext }) := rfl

/-- C3: for every circuit data, preparation function and state-verification function, the
proof-carrying packer registered by `initPackageManager` has a proving-parameter map and a
verification-parameter map with the same key set, the single key `mapKey`; the
verification entry carries `circuitData.verificationKey` and the handler of
`stateVerificationFn`, the proving entry carries `circuitData.provingKey`,
`circuitData.wasm` and the handler of `prepareFn`; an algorithm has proving parameters
exactly when it has verification parameters, and unpacking an envelope this packer packed
does not fail with `UnsupportedAlgorithmError`. -/
theorem initPackageManager_prover_has_verifier
    (circuitData : CircuitData) (prepareFn stateVerificationFn : JSFunction) (w : World) :
    ∃ mgr w1 packer,
      initPackageManager circuitData prepareFn stateVerificationFn w = (Except.ok mgr, w1) ∧
      mgr.getPacker MediaType.ZKPMessage = some (Packer.zkp packer) ∧
      JSMap.keys packer.provingParamsMap = [provingMethodGroth16AuthV2Alg] ∧
      JSMap.keys packer.verificationParamsMap = [provingMethodGroth16AuthV2Alg] ∧
      JSMap.get packer.verificationParamsMap provingMethodGroth16AuthV2Alg =
        some { key := circuitData.verificationKey,
               verificationFn := { id := w.nextId + 1, fn := stateVerificationFn } } ∧
      JSMap.get packer.provingParamsMap provingMethodGroth16AuthV2Alg =
        some { dataPreparer := { id := w.nextId, fn := prepareFn },
               provingKey := circuitData.provingKey, wasm := circuitData.wasm } ∧
      (∀ alg, (JSMap.get packer.provingParamsMap alg).isSome =
        (JSMap.get packer.verificationParamsMap alg).isSome) ∧
      (∀ prove verify payload alg envelope,
        packer.pack prove payload alg = Except.ok envelope →
        packer.unpack verify envelope ≠ Except.error JSError.UnsupportedAlgorithmError) := by
  refine ⟨_, _, _, initPackageManager_run circuitData prepareFn stateVerificationFn w,
    rfl, rfl, rfl, ?_, ?_, ?_, ?_⟩
  · simp [JSMap.get]
  · simp [JSMap.get]
  · intro alg
    by_cases h : provingMethodGroth16AuthV2Alg = alg <;> simp [JSMap.get, h]
  · intro prove verify payload alg envelope hpack
    by_cases h : provingMethodGroth16AuthV2Alg = alg
    · subst h
      simp only [ZKPPacker.pack, JSMap.get, if_true] at hpack
      split at hpack
      · cases hpack
      · cases hpack
        simp only [ZKPPacker.unpack, JSMap.get, if_true]
        split <;> simp
    · simp [ZKPPacker.pack, JSMap.get, h] at hpack

/-- An envelope packed for the AuthV2 algorithm is unpacked without
`UnsupportedAlgorithmError`, here with a verifier that rejects every proof. -/
theorem initPackageManager_prover_has_verifier_witness :
    ∃ mgr w1 packer,
      initPackageManager ⟨"authV2", some [0], some [1], some [2]⟩ (.other 0) (.other 1)
        ⟨[], 0, 0⟩ = (Except.ok mgr, w1) ∧
      mgr.getPacker MediaType.ZKPMessage = some (Packer.zkp packer) ∧
      packer.pack (fun _ _ => Except.ok ⟨"authV2", [], []⟩) [7] "groth16:authV2" =
        Except.ok ⟨"groth16:authV2", [7], ⟨"authV2", [], []⟩⟩ ∧
      packer.unpack (fun _ _ _ => false) ⟨"groth16:authV2", [7], ⟨"authV2", [], []⟩⟩ ≠
        Except.error JSError.UnsupportedAlgorithmError := by
  obtain ⟨mgr, w1, packer, hrun, hget, _, _, _, hprove, _, hunpack⟩ :=
    initPackageManager_prover_has_verifier ⟨"authV2", some [0], some [1], some [2]⟩
      (.other 0) (.other 1) ⟨[], 0, 0⟩
  have hpack : packer.pack (fun _ _ => Except.ok ⟨"authV2", [], []⟩) [7] "groth16:authV2" =
      Except.ok ⟨"groth16:authV2", [7], ⟨"authV2", [], []⟩⟩ := by
    have hp : JSMap.get packer.provingParamsMap "groth16:authV2" = _ := hprove
    simp only [ZKPPacker.pack, hp]
  exact ⟨mgr, w1, packer, hrun, hget, hpack, hunpack _ _ _ _ _ hpack⟩

/-- C4: for every circuit data and pair of functions, the package manager returned by
`initPackageManager` has exactly two packers registered, the proof-carrying packer and the
plain packer, under two different media types, each under its own; the media type
declared by the authorization request of `main`, for whatever issuer, is
`MediaType.PlainMessage`, under which the plain packer is registered. -/
theorem initPackageManager_registers_two_packers
    (circuitData : CircuitData) (prepareFn stateVerificationFn : JSFunction) (w : World) :
    ∃ mgr w1 zkpPacker plainPacker,
      initPackageManager circuitData prepareFn stateVerificationFn w = (Except.ok mgr, w1) ∧
      mgr.packers =
        [(MediaType.ZKPMessage, Packer.zkp zkpPacker),
         (MediaType.PlainMessage, Packer.plain plainPacker)] ∧
      mgr.packers.length = 2 ∧
      MediaType.ZKPMessage ≠ MediaType.PlainMessage ∧
      mgr.getPacker MediaType.ZKPMessage = some (Packer.zkp zkpPacker) ∧
      mgr.getPacker MediaType.PlainMessage = some (Packer.plain plainPacker) ∧
      (∀ mediaType p, mgr.getPacker mediaType = some p → p.mediaType = mediaType) ∧
      (∀ issuerDID, ∃ typ, (authRequest issuerDID).typ = some typ ∧
        mgr.getPacker typ = some (Packer.plain plainPacker)) := by
  refine ⟨_, _, _, _, initPackageManager_run circuitData prepareFn stateVerificationFn w,
    rfl, rfl, by decide, rfl, rfl, ?_, ?_⟩
  · intro mediaType p h
    simp only [PackageManager.getPacker, JSMap.get] at h
    split_ifs at h with h1 h2
    · cases h; exact h1
    · cases h; exact h2
  · intro issuerDID
    exact ⟨MediaType.PlainMessage, rfl, rfl⟩

/-! ## The driver `main` -/

/-- C7: for all callees and every world, `main` itself completes normally, and what it
leaves observed satisfies: if any call threw, with whatever error, the completion message
is not printed, that same error is printed by the outer handler, and the last event is the
exit of the process with status 1; if `loadCircuitData` threw, the inner handler printed
its message and the error went on to the outer handler, `initPackageManager` and
`handleAuthorizationRequest` were not called; these two are called only after
`loadCircuitData` returned; the completion message is printed exactly when no call
threw, and then it is the last event, no exit occurred and every callee returned. -/
theorem main_never_downgrades_an_error (CIRCUITS_PATH : String) (c : Callees) (w : World) :
    (main CIRCUITS_PATH c { world := w, out := [] }).1 = Except.ok () ∧
    (∀ name e, Event.threw name e ∈ observe (main CIRCUITS_PATH c) w →
      completionMessage ∉ observe (main CIRCUITS_PATH c) w ∧
      Event.logError ["Error in authentication flow:", errorText e] ∈
        observe (main CIRCUITS_PATH c) w ∧
      (observe (main CIRCUITS_PATH c) w).getLast? = some (Event.processExit 1)) ∧
    (∀ e, Event.threw "loadCircuitData" e ∈ observe (main CIRCUITS_PATH c) w →
      Event.logError ["-> Failed to load AuthV2 circuit data. Make sure circuits are downloaded into the /circuits folder."] ∈
        observe (main CIRCUITS_PATH c) w ∧
      (∀ cd f g, Event.call (.initPackageManager cd f g) ∉ observe (main CIRCUITS_PATH c) w) ∧
      (∀ h did request, Event.call (.handleAuthorizationRequest h did request) ∉
        observe (main CIRCUITS_PATH c) w)) ∧
    (∀ cd f g, Event.call (.initPackageManager cd f g) ∈ observe (main CIRCUITS_PATH c) w →
      Event.returned "loadCircuitData" ∈ observe (main CIRCUITS_PATH c) w) ∧
    (∀ h did request,
      Event.call (.handleAuthorizationRequest h did request) ∈ observe (main CIRCUITS_PATH c) w →
      Event.returned "loadCircuitData" ∈ observe (main CIRCUITS_PATH c) w ∧
      Event.returned "initPackageManager" ∈ observe (main CIRCUITS_PATH c) w) ∧
    (completionMessage ∈ observe (main CIRCUITS_PATH c) w ↔
      ∀ name e, Event.threw name e ∉ observe (main CIRCUITS_PATH c) w) ∧
    (completionMessage ∈ observe (main CIRCUITS_PATH c) w →
      (observe (main CIRCUITS_PATH c) w).getLast? = some completionMessage ∧
      (∀ code, Event.processExit code ∉ observe (main CIRCUITS_PATH c) w) ∧
      Event.returned "initInMemoryDataStorageAndWallets" ∈ observe (main CIRCUITS_PATH c) w ∧
      Event.returned "initCircuitStorage" ∈ observe (main CIRCUITS_PATH c) w ∧
      Event.returned "initProofService" ∈ observe (main CIRCUITS_PATH c) w ∧
      Event.returned "createIdentity" ∈ observe (main CIRCUITS_PATH c) w ∧
      Event.returned "loadCircuitData" ∈ observe (main CIRCUITS_PATH c) w ∧
      Event.returned "initPackageManager" ∈ observe (main CIRCUITS_PATH c) w ∧
      Event.returned "handleAuthorizationRequest" ∈ observe (main CIRCUITS_PATH c) w) := by
  simp only [observe, main, bind_apply, pure_apply, throw_apply, tryCatch_apply, emit_apply,
    liftJS_apply, invoke_apply, allocObj, newId, Call.name, completionMessage]
  generalize c.initInMemoryDataStorageAndWallets _ _ = r1
  obtain ⟨e1 | wallets, w1⟩ := r1
  · simp
  simp only []
  generalize c.initCircuitStorage _ _ = r2
  obtain ⟨e2 | cs, w2⟩ := r2
  · simp
  simp only []
  generalize c.initProofService _ _ _ _ _ = r3
  obtain ⟨e3 | ps, w3⟩ := r3
  · simp
  simp only []
  generalize c.createIdentity _ _ _ = r4
  obtain ⟨e4 | user, w4⟩ := r4
  · simp
  simp only []
  generalize c.createIdentity _ _ _ = r5
  obtain ⟨e5 | issuer, w5⟩ := r5
  · simp
  simp only []
  generalize c.loadCircuitData _ _ _ = r6
  obtain ⟨e6 | cd, w6⟩ := r6
  · simp
  simp only []
  generalize c.initPackageManager _ _ _ _ = r7
  obtain ⟨e7 | pm, w7⟩ := r7
  · simp
  simp only []
  generalize c.handleAuthorizationRequest _ _ _ _ = r8
  obtain ⟨e8 | resp, w8⟩ := r8
  · simp
  simp

theorem initCircuitStorage_run (circuitsFolder : String) (w : World) :
    initCircuitStorage circuitsFolder w =
      (Except.ok { id := w.nextId, dirname := circuitsFolder },
       { heap := w.heap, nextId := w.nextId + 1, ext := w.ext }) := rfl

theorem initProofService_run (identityWallet : IdentityWallet)
    (credentialWallet : CredentialWallet) (stateStorage : EthStateStorage)
    (circuitStorage : FSCircuitStorage) (w : World) :
    initProofService identityWallet credentialWallet stateStorage circuitStorage w =
      (Except.ok
        { id := w.nextId, identityWallet := identityWallet,
          credentialWallet := credentialWallet, circuitStorage := circuitStorage,
          stateStorage := stateStorage, opts := { ipfsGatewayURL := "https://ipfs.io" } },
       { heap := w.heap, nextId := w.nextId + 1, ext := w.ext }) := rfl

theorem initInMemoryDataStorageAndWallets_run_main (d : Ref) (w : World) :
    initInMemoryDataStorageAndWallets d w.heap.length
        { heap := w.heap ++ [[("rpcUrl", JSValue.str RPC_URL),
            ("contractAddress", JSValue.str CONTRACT_ADDRESS),
            ("chainId", JSValue.num CHAIN_ID)]],
          nextId := w.nextId, ext := w.ext } =
      (let config : JSObject :=
        [("rpcUrl", JSValue.str RPC_URL), ("contractAddress", JSValue.str CONTRACT_ADDRESS),
          ("chainId", JSValue.num CHAIN_ID)]
       let heap0 := w.heap ++ [config]
       let conf1 := confLiteral (heap0.getD d []) (heap0.getD w.heap.length [])
       let heap1 := heap0 ++ [conf1]
       let conf2 := confLiteral (heap1.getD d []) (heap1.getD w.heap.length [])
       let dataStorage : DataStorage :=
        { id := w.nextId + 7,
          credential := { id := w.nextId + 1, source := { id := w.nextId } },
          identity :=
            { id := w.nextId + 4, identities := { id := w.nextId + 2 },
              profiles := { id := w.nextId + 3 } },
          mt := { id := w.nextId + 5, depth := 40 },
          states := { id := w.nextId + 6, conf := heap0.length } }
       let credentialWallet : CredentialWallet :=
        { id := w.nextId + 13, storage := dataStorage,
          resolvers :=
            { id := w.nextId + 8,
              resolvers :=
                [(CredentialStatusType.SparseMerkleTreeProof, .issuer { id := w.nextId + 9 }),
                 (CredentialStatusType.Iden3ReverseSparseMerkleTreeProof,
                   .rhs { id := w.nextId + 10, state := dataStorage.states }),
                 (CredentialStatusType.Iden3OnchainSparseMerkleTreeProof2023,
                   .onChain { id := w.nextId + 11, configs := [heap1.length] }),
                 (CredentialStatusType.Iden3commRevocationStatusV1,
                   .agent { id := w.nextId + 12 })] } }
       let kms : KMS :=
        { id := w.nextId + 16,
          registry :=
            [(KmsKeyType.BabyJubJub,
              { id := w.nextId + 15, keyType := KmsKeyType.BabyJubJub,
                keyStore := { id := w.nextId + 14 } })] }
       (Except.ok
        { dataStorage, credentialWallet,
          identityWallet :=
            { id := w.nextId + 19, kms, storage := dataStorage, credentialWallet,
              opts :=
                { credentialStatusPublisherRegistry :=
                    { id := w.nextId + 17,
                      publishers :=
                        [(CredentialStatusType.Iden3ReverseSparseMerkleTreeProof,
                          { id := w.nextId + 18 })] } } },
          kms },
        { heap := heap1 ++ [conf2], nextId := w.nextId + 20, ext := w.ext })) := by
  have hcfg : (w.heap ++ [[("rpcUrl", JSValue.str RPC_URL),
      ("contractAddress", JSValue.str CONTRACT_ADDRESS),
      ("chainId", JSValue.num CHAIN_ID)]]).getD w.heap.length [] =
      [("rpcUrl", JSValue.str RPC_URL), ("contractAddress", JSValue.str CONTRACT_ADDRESS),
        ("chainId", JSValue.num CHAIN_ID)] := getD_concat_length _ _
  have hu : getProp [("rpcUrl", JSValue.str RPC_URL),
      ("contractAddress", JSValue.str CONTRACT_ADDRESS),
      ("chainId", JSValue.num CHAIN_ID)] "rpcUrl" = JSValue.str RPC_URL := by
    simp [getProp, List.find?_cons]
  have ha : getProp [("rpcUrl", JSValue.str RPC_URL),
      ("contractAddress", JSValue.str CONTRACT_ADDRESS),
      ("chainId", JSValue.num CHAIN_ID)] "contractAddress" = JSValue.str CONTRACT_ADDRESS := by
    simp [getProp, List.find?_cons]
  refine initInMemoryDataStorageAndWallets_ok d w.heap.length _ ?_ ?_
  · show ethConfigError (confLiteral _ ((w.heap ++ [_]).getD w.heap.length [])) = none
    rw [hcfg]
    exact confLiteral_accepted _ _ _ _ hu ha
  · have hcfg2 : ∀ c : JSObject, (w.heap ++ [[("rpcUrl", JSValue.str RPC_URL),
        ("contractAddress", JSValue.str CONTRACT_ADDRESS),
        ("chainId", JSValue.num CHAIN_ID)]] ++ [c]).getD w.heap.length [] =
        [("rpcUrl", JSValue.str RPC_URL), ("contractAddress", JSValue.str CONTRACT_ADDRESS),
          ("chainId", JSValue.num CHAIN_ID)] := by
      intro c
      rw [getD_concat_of_lt _ _ w.heap.length (by simp), hcfg]
    show ethConfigError (confLiteral _ ((w.heap ++ [_] ++ [_]).getD w.heap.length [])) = none
    rw [hcfg2]
    exact confLiteral_accepted _ _ _ _ hu ha

/-- C9: `initProofService` gives the constructor of `ProofService` its fourth parameter
`circuitStorage` third and its third parameter `stateStorage` fourth. In a run of `main`,
whenever the authorization request is handled, the proof service of the handler has as
state storage `dataStorage.states` of the data storage its identity wallet was built on,
which is the state storage held by the RHS resolver of its credential wallet; its circuit
store is the storage `loadCircuitData` was called on; and the two functions given to
`initPackageManager`, found again in the packer of the handler's package manager, are
methods bound to that same proof service. -/
theorem initProofService_wiring (CIRCUITS_PATH : String) (d : Ref) (sdk : SDK) (w : World)
    (identityWallet : IdentityWallet) (credentialWallet : CredentialWallet)
    (stateStorage : EthStateStorage) (circuitStorage : FSCircuitStorage) (w0 : World) :
    (∃ ps w1,
      initProofService identityWallet credentialWallet stateStorage circuitStorage w0 =
        (Except.ok ps, w1) ∧
      ps = ProofService.mk w0.nextId identityWallet credentialWallet circuitStorage stateStorage
        { ipfsGatewayURL := "https://ipfs.io" } ∧
      ps.stateStorage = stateStorage ∧ ps.circuitStorage = circuitStorage) ∧
    (∀ h did request,
      Event.call (.handleAuthorizationRequest h did request) ∈
        observe (main CIRCUITS_PATH (callees d sdk)) w →
      h.proofService.stateStorage = h.proofService.identityWallet.storage.states ∧
      h.proofService.credentialWallet.storage = h.proofService.identityWallet.storage ∧
      (∃ r, h.proofService.credentialWallet.resolvers.get
          CredentialStatusType.Iden3ReverseSparseMerkleTreeProof = some (.rhs r) ∧
        r.state = h.proofService.stateStorage) ∧
      (∀ iw cw ss cs,
        Event.call (.initProofService iw cw ss cs) ∈
          observe (main CIRCUITS_PATH (callees d sdk)) w →
        ss = iw.storage.states ∧ h.proofService.identityWallet = iw ∧
        h.proofService.credentialWallet = cw ∧ h.proofService.stateStorage = ss ∧
        h.proofService.circuitStorage = cs) ∧
      (∀ cs circuitId,
        Event.call (.loadCircuitData cs circuitId) ∈
          observe (main CIRCUITS_PATH (callees d sdk)) w →
        cs = h.proofService.circuitStorage ∧ circuitId = CircuitId.AuthV2) ∧
      (∀ cd f g,
        Event.call (.initPackageManager cd f g) ∈
          observe (main CIRCUITS_PATH (callees d sdk)) w →
        f = JSFunction.boundMethod "generateAuthV2Inputs" h.proofService ∧
        g = JSFunction.boundMethod "verifyState" h.proofService) ∧
      (∃ packer proving verification,
        h.packageManager.getPacker MediaType.ZKPMessage = some (Packer.zkp packer) ∧
        JSMap.get packer.provingParamsMap provingMethodGroth16AuthV2Alg = some proving ∧
        JSMap.get packer.verificationParamsMap provingMethodGroth16AuthV2Alg =
          some verification ∧
        proving.dataPreparer.fn =
          JSFunction.boundMethod "generateAuthV2Inputs" h.proofService ∧
        verification.verificationFn.fn =
          JSFunction.boundMethod "verifyState" h.proofService)) := by
  refine ⟨⟨_, _, initProofService_run _ _ _ _ _, rfl, rfl, rfl⟩, ?_⟩
  simp only [observe, main, callees, bind_apply, pure_apply, throw_apply, tryCatch_apply,
    emit_apply, liftJS_apply, invoke_apply, allocObj, newId, Call.name, completionMessage,
    initInMemoryDataStorageAndWallets_run_main, initCircuitStorage_run, initProofService_run,
    initPackageManager_run]
  generalize sdk.createIdentity _ _ _ = r4
  obtain ⟨e4 | user, w4⟩ := r4
  · intro h did request hmem
    simp at hmem
  simp only []
  generalize sdk.createIdentity _ _ _ = r5
  obtain ⟨e5 | issuer, w5⟩ := r5
  · intro h did request hmem
    simp at hmem
  simp only []
  generalize sdk.loadCircuitData _ _ _ = r6
  obtain ⟨e6 | cd, w6⟩ := r6
  · intro h did request hmem
    simp at hmem
  simp only []
  generalize sdk.handleAuthorizationRequest _ _ _ _ = r8
  obtain ⟨e8 | resp, w8⟩ := r8 <;>
  · intro h did request hmem
    simp at hmem
    obtain ⟨rfl, rfl, rfl⟩ := hmem
    refine ⟨rfl, rfl, ⟨_, rfl, rfl⟩, ?_, ?_, ?_, ⟨_, _, _, rfl, rfl, rfl, rfl, rfl⟩⟩
    · intro iw cw ss cs hm
      simp at hm
      obtain ⟨rfl, rfl, rfl, rfl⟩ := hm
      exact ⟨rfl, rfl, rfl, rfl, rfl⟩
    · intro cs circuitId hm
      simp at hm
      obtain ⟨rfl, rfl⟩ := hm
      exact ⟨rfl, rfl⟩
    · intro cd1 f g hm
      simp at hm
      obtain ⟨rfl, rfl, rfl⟩ := hm
      exact ⟨rfl, rfl⟩

/-- C5: the authorization request `main` builds passes the validation of the transition
`Received → Parsed` whatever the identifier of the issuer: `id`, `type`, `from` and
`body.callbackUrl` are present and `type` is the authorization-request type, so the result
is not `MalformedMessageError`; the fields `id`, `thid`, `typ`, `type`, `from` and `body`
of the wire shape are present; `id` and `thid` are the same string. For all callees, hence
for every pair of identities `createIdentity` returns, the request `main` hands to
`handleAuthorizationRequest` is this request, built on the identifier printed for the
issuer. -/
theorem authRequest_passes_validation (CIRCUITS_PATH : String) (c : Callees) (w : World) :
    (∀ issuerDID,
      receivedToParsed (authRequest issuerDID) =
        Except.ok
          { id := messageId, type := AUTHORIZATION_REQUEST_MESSAGE_TYPE, «from» := issuerDID,
            callbackUrl := "http://localhost:8080/callback",
            message := authRequest issuerDID } ∧
      receivedToParsed (authRequest issuerDID) ≠ Except.error JSError.MalformedMessageError ∧
      (authRequest issuerDID).id.isSome = true ∧
      (authRequest issuerDID).thid.isSome = true ∧
      (authRequest issuerDID).typ.isSome = true ∧
      (authRequest issuerDID).type.isSome = true ∧
      (authRequest issuerDID).«from».isSome = true ∧
      (authRequest issuerDID).body.isSome = true ∧
      (authRequest issuerDID).id = (authRequest issuerDID).thid ∧
      (authRequest issuerDID).type = some AUTHORIZATION_REQUEST_MESSAGE_TYPE ∧
      (authRequest issuerDID).«from» = some issuerDID) ∧
    (∀ h did request,
      Event.call (.handleAuthorizationRequest h did request) ∈
        observe (main CIRCUITS_PATH c) w →
      ∃ issuerDID, request = authRequest issuerDID ∧
        Event.log ["-> Issuer Identity DID:", issuerDID] ∈ observe (main CIRCUITS_PATH c) w ∧
        Event.log ["-> User Identity DID:", did.string] ∈
          observe (main CIRCUITS_PATH c) w) := by
  constructor
  · intro issuerDID
    have hok : receivedToParsed (authRequest issuerDID) =
        Except.ok
          { id := messageId, type := AUTHORIZATION_REQUEST_MESSAGE_TYPE, «from» := issuerDID,
            callbackUrl := "http://localhost:8080/callback",
            message := authRequest issuerDID } := by
      simp [receivedToParsed, authRequest]
    refine ⟨hok, ?_, rfl, rfl, rfl, rfl, rfl, rfl, rfl, rfl, rfl⟩
    rw [hok]
    intro hne
    cases hne
  simp only [observe, main, bind_apply, pure_apply, throw_apply, tryCatch_apply, emit_apply,
    liftJS_apply, invoke_apply, allocObj, newId, Call.name, completionMessage]
  generalize c.initInMemoryDataStorageAndWallets _ _ = r1
  obtain ⟨e1 | wallets, w1⟩ := r1
  · simp
  simp only []
  generalize c.initCircuitStorage _ _ = r2
  obtain ⟨e2 | cs, w2⟩ := r2
  · simp
  simp only []
  generalize c.initProofService _ _ _ _ _ = r3
  obtain ⟨e3 | ps, w3⟩ := r3
  · simp
  simp only []
  generalize c.createIdentity _ _ _ = r4
  obtain ⟨e4 | user, w4⟩ := r4
  · simp
  simp only []
  generalize c.createIdentity _ _ _ = r5
  obtain ⟨e5 | issuer, w5⟩ := r5
  · simp
  simp only []
  generalize c.loadCircuitData _ _ _ = r6
  obtain ⟨e6 | cd, w6⟩ := r6
  · simp
  simp only []
  generalize c.initPackageManager _ _ _ _ = r7
  obtain ⟨e7 | pm, w7⟩ := r7
  · simp
  simp only []
  generalize c.handleAuthorizationRequest _ _ _ _ = r8
  obtain ⟨e8 | resp, w8⟩ := r8 <;>
  · simp only []
    intro h did request hmem
    simp only [List.nil_append, List.append_assoc, List.cons_append] at hmem ⊢
    simp at hmem
    obtain ⟨rfl, rfl, rfl⟩ := hmem
    refine ⟨issuer.1.string, rfl, ?_, ?_⟩ <;> simp

/-- C8: the tag `main` passes to `createIdentity` is
`Iden3ReverseSparseMerkleTreeProof`. Every registry `initCredentialWallet` returns has the
RHS resolver registered for it, and `resolve` on a status with this tag delegates to that
resolver; every publisher registry `initInMemoryDataStorageAndWallets` returns has a
publisher registered for it. In a run of `main`, `createIdentity` is called, always with
these options and on an identity wallet both of whose registries know the tag. -/
theorem revocation_strategy_is_registered (CIRCUITS_PATH : String) (d : Ref) (sdk : SDK)
    (w : World) (dataStorage : DataStorage) (config : Ref) (w0 : World) :
    defaultIdentityCreationOptions.revocationOpts.type =
      CredentialStatusType.Iden3ReverseSparseMerkleTreeProof ∧
    (∀ cw w1, initCredentialWallet d dataStorage config w0 = (Except.ok cw, w1) →
      ∃ r,
        cw.resolvers.get defaultIdentityCreationOptions.revocationOpts.type = some (.rhs r) ∧
        ∀ backend status, status.type = defaultIdentityCreationOptions.revocationOpts.type →
          cw.resolvers.resolve backend status = backend (.rhs r) status) ∧
    (∀ wallets w1,
      initInMemoryDataStorageAndWallets d config w0 = (Except.ok wallets, w1) →
      ∃ r publisher,
        wallets.identityWallet.credentialWallet = wallets.credentialWallet ∧
        wallets.credentialWallet.resolvers.get
          defaultIdentityCreationOptions.revocationOpts.type = some (.rhs r) ∧
        wallets.identityWallet.opts.credentialStatusPublisherRegistry.get
          defaultIdentityCreationOptions.revocationOpts.type = some publisher) ∧
    (∃ identityWallet,
      Event.call (.createIdentity identityWallet defaultIdentityCreationOptions) ∈
        observe (main CIRCUITS_PATH (callees d sdk)) w) ∧
    (∀ identityWallet opts,
      Event.call (.createIdentity identityWallet opts) ∈
        observe (main CIRCUITS_PATH (callees d sdk)) w →
      opts = defaultIdentityCreationOptions ∧
      (∃ r, identityWallet.credentialWallet.resolvers.get opts.revocationOpts.type =
          some (.rhs r) ∧
        ∀ backend status, status.type = opts.revocationOpts.type →
          identityWallet.credentialWallet.resolvers.resolve backend status =
            backend (.rhs r) status) ∧
      (∃ publisher,
        identityWallet.opts.credentialStatusPublisherRegistry.get opts.revocationOpts.type =
          some publisher)) := by
  have hres : ∀ (reg : CredentialStatusResolverRegistry) (r : RHSResolver),
      reg.get CredentialStatusType.Iden3ReverseSparseMerkleTreeProof = some (.rhs r) →
      ∀ (backend : CredentialStatusResolver → CredentialStatus → Except JSError RevocationStatus)
        (status : CredentialStatus),
        status.type = CredentialStatusType.Iden3ReverseSparseMerkleTreeProof →
        reg.resolve backend status = backend (.rhs r) status := by
    intro reg r hget backend status hs
    unfold CredentialStatusResolverRegistry.resolve
    rw [hs, hget]
  refine ⟨rfl, ?_, ?_, ?_, ?_⟩
  · intro cw w1 hrun
    cases hacc : ethConfigError (confLiteral (w0.heap.getD d []) (w0.heap.getD config [])) with
    | some e =>
      rw [initCredentialWallet_error d dataStorage config w0 e hacc] at hrun
      simp at hrun
    | none =>
      rw [initCredentialWallet_ok d dataStorage config w0 hacc] at hrun
      simp only [Prod.mk.injEq, Except.ok.injEq] at hrun
      obtain ⟨rfl, _⟩ := hrun
      exact ⟨_, rfl, hres _ _ rfl⟩
  · intro wallets w1 hrun
    cases h1 : ethConfigError (confLiteral (w0.heap.getD d []) (w0.heap.getD config [])) with
    | some e =>
      have he := initInMemoryDataStorageAndWallets_error_first d config w0 e h1
      rw [hrun] at he
      simp at he
    | none =>
      cases h2 : ethConfigError
          (confLiteral
            ((w0.heap ++ [confLiteral (w0.heap.getD d []) (w0.heap.getD config [])]).getD d [])
            ((w0.heap ++ [confLiteral (w0.heap.getD d []) (w0.heap.getD config [])]).getD
              config [])) with
      | some e =>
        have he := initInMemoryDataStorageAndWallets_error_second d config w0 e h1 h2
        rw [hrun] at he
        simp at he
      | none =>
        rw [initInMemoryDataStorageAndWallets_ok d config w0 h1 h2] at hrun
        simp only [Prod.mk.injEq, Except.ok.injEq] at hrun
        obtain ⟨rfl, _⟩ := hrun
        exact ⟨_, _, rfl, rfl, rfl⟩
  · simp only [observe, main, callees, bind_apply, pure_apply, throw_apply, tryCatch_apply,
      emit_apply, liftJS_apply, invoke_apply, allocObj, newId, Call.name, completionMessage,
      initInMemoryDataStorageAndWallets_run_main, initCircuitStorage_run, initProofService_run,
      initPackageManager_run]
    generalize sdk.createIdentity _ _ _ = r4
    obtain ⟨e4 | user, w4⟩ := r4
    · simp
    simp only []
    generalize sdk.createIdentity _ _ _ = r5
    obtain ⟨e5 | issuer, w5⟩ := r5
    · simp
    simp only []
    generalize sdk.loadCircuitData _ _ _ = r6
    obtain ⟨e6 | cd, w6⟩ := r6
    · simp
    simp only []
    generalize sdk.handleAuthorizationRequest _ _ _ _ = r8
    obtain ⟨e8 | resp, w8⟩ := r8 <;> simp
  · simp only [observe, main, callees, bind_apply, pure_apply, throw_apply, tryCatch_apply,
      emit_apply, liftJS_apply, invoke_apply, allocObj, newId, Call.name, completionMessage,
      initInMemoryDataStorageAndWallets_run_main, initCircuitStorage_run, initProofService_run,
      initPackageManager_run]
    have fin : ∀ (iw : IdentityWallet) (opts : IdentityCreationOptions) (iw0 : IdentityWallet),
        iw = iw0 ∧ opts = defaultIdentityCreationOptions →
        (∃ r, iw0.credentialWallet.resolvers.get
            CredentialStatusType.Iden3ReverseSparseMerkleTreeProof = some (.rhs r)) →
        (∃ p, iw0.opts.credentialStatusPublisherRegistry.get
            CredentialStatusType.Iden3ReverseSparseMerkleTreeProof = some p) →
        opts = defaultIdentityCreationOptions ∧
        (∃ r, iw.credentialWallet.resolvers.get opts.revocationOpts.type = some (.rhs r) ∧
          ∀ backend status, status.type = opts.revocationOpts.type →
            iw.credentialWallet.resolvers.resolve backend status =
              backend (.rhs r) status) ∧
        (∃ publisher,
          iw.opts.credentialStatusPublisherRegistry.get opts.revocationOpts.type =
            some publisher) := by
      rintro iw opts iw0 ⟨rfl, rfl⟩ ⟨r, hr⟩ ⟨p, hp⟩
      exact ⟨rfl, ⟨r, hr, hres _ _ hr⟩, ⟨p, hp⟩⟩
    generalize sdk.createIdentity _ _ _ = r4
    obtain ⟨e4 | user, w4⟩ := r4
    · intro iw opts hmem
      simp at hmem
      exact fin iw opts _ hmem ⟨_, rfl⟩ ⟨_, rfl⟩
    simp only []
    generalize sdk.createIdentity _ _ _ = r5
    obtain ⟨e5 | issuer, w5⟩ := r5
    · intro iw opts hmem
      simp at hmem
      exact fin iw opts _ hmem ⟨_, rfl⟩ ⟨_, rfl⟩
    simp only []
    generalize sdk.loadCircuitData _ _ _ = r6
    obtain ⟨e6 | cd, w6⟩ := r6
    · intro iw opts hmem
      simp at hmem
      exact fin iw opts _ hmem ⟨_, rfl⟩ ⟨_, rfl⟩
    simp only []
    generalize sdk.handleAuthorizationRequest _ _ _ _ = r8
    obtain ⟨e8 | resp, w8⟩ := r8 <;>
    · intro iw opts hmem
      simp at hmem
      exact fin iw opts _ hmem ⟨_, rfl⟩ ⟨_, rfl⟩

/-! ## Instances on sample inputs -/

/-- With the `config` of `main` a wallet is returned, and the tag of the RHS strategy is
registered in it, with a resolver of that strategy. -/
theorem initCredentialWallet_registers_four_strategies_witness :
    ∃ cw w1 r,
      initCredentialWallet 0 sampleDataStorage 1 sampleMainWorld = (Except.ok cw, w1) ∧
      cw.resolvers.resolvers.length = 4 ∧
      cw.resolvers.get "Iden3ReverseSparseMerkleTreeProof" = some r ∧
      r.strategy = Strategy.reverseHostedService := by
  obtain ⟨hall, hret, _⟩ :=
    initCredentialWallet_registers_four_strategies 0 sampleDataStorage 1 sampleMainWorld
  obtain ⟨cw, w1, hrun⟩ := hret RPC_URL CONTRACT_ADDRESS (by decide) (by decide)
  obtain ⟨hlen, _, _, _, hrhs, _, _, hstrategy⟩ := hall cw w1 hrun
  refine ⟨cw, w1, _, hrun, hlen, hrhs, ?_⟩
  rcases hstrategy _ _ hrhs with h | h | h | h
  · exact absurd h.1 (by decide)
  · exact h.2
  · exact absurd h.1 (by decide)
  · exact absurd h.1 (by decide)

/-- With the `config` of `main` a registry is returned, and a status with a tag that is
not registered is refused although the backend would answer. -/
theorem resolve_unregistered_tag_fails_witness :
    ∃ cw w1, initCredentialWallet 0 sampleDataStorage 1 sampleMainWorld = (Except.ok cw, w1) ∧
      cw.resolvers.get "BJJSignature2021" = none ∧
      cw.resolvers.resolve (fun _ _ => Except.ok ⟨[], []⟩) ⟨"BJJSignature2021", "", 0⟩ =
        Except.error JSError.UnregisteredStrategyError :=
  (resolve_unregistered_tag_fails 0 sampleDataStorage 1 sampleMainWorld
    (fun _ _ => Except.ok ⟨[], []⟩) ⟨"BJJSignature2021", "", 0⟩
    (by decide) (by decide) (by decide) (by decide)).2 RPC_URL CONTRACT_ADDRESS
    (by decide) (by decide)

/-- With the `config` of `main` the wallets are returned, and the returned KMS holds one
provider and is the KMS of the identity wallet. -/
theorem initInMemoryDataStorageAndWallets_registers_one_provider_witness :
    ∃ wallets w1,
      initInMemoryDataStorageAndWallets 0 1 sampleMainWorld = (Except.ok wallets, w1) ∧
      wallets.kms.registry.length = 1 ∧
      wallets.identityWallet.kms = wallets.kms := by
  obtain ⟨_, hall, hret, _⟩ :=
    initInMemoryDataStorageAndWallets_registers_one_provider 0 1 sampleMainWorld
  obtain ⟨wallets, w1, hrun⟩ :=
    hret RPC_URL CONTRACT_ADDRESS (by decide) (by decide) (by decide)
  obtain ⟨_, _, hreg, _, hsame⟩ := hall wallets w1 hrun
  exact ⟨wallets, w1, hrun, by rw [hreg]; rfl, hsame⟩

/-- The plain packer is found under the media type of a sample request. -/
theorem initPackageManager_registers_two_packers_witness :
    ∃ mgr w1 p,
      initPackageManager ⟨"authV2", some [0], some [1], some [2]⟩ (.other 0) (.other 1)
        sampleWorld = (Except.ok mgr, w1) ∧
      (authRequest "did:issuer").typ = some MediaType.PlainMessage ∧
      mgr.getPacker MediaType.PlainMessage = some p ∧
      p.mediaType = MediaType.PlainMessage := by
  obtain ⟨mgr, w1, zkpPacker, plainPacker, hrun, _, _, _, _, hplain, hown, _⟩ :=
    initPackageManager_registers_two_packers ⟨"authV2", some [0], some [1], some [2]⟩
      (.other 0) (.other 1) sampleWorld
  exact ⟨mgr, w1, _, hrun, rfl, hplain, hown _ _ hplain⟩

/-- A `config` that defines `rpcUrl` and `contractAddress` and no `chainId`: both calls
return, the default `chainId` is replaced by `undefined`, the default `url` by
`config.rpcUrl`, and `defaultGasLimit` is kept. -/
theorem ethConnectionConfig_same_in_both_witness :
    ∃ r1 w1 r2 w2,
      initInMemoryDataStorage 0 1 sampleConfigWorld = (r1, w1) ∧
      initCredentialWallet 0 sampleDataStorage 1 w1 = (r2, w2) ∧
      (∃ ds, r1 = Except.ok ds ∧ ds.states.conf = 2) ∧
      w2.heap.getD 2 [] = w2.heap.getD 3 [] ∧
      getProp (w2.heap.getD 3 []) "chainId" = JSValue.undefined ∧
      getProp (w2.heap.getD 3 []) "url" = .str "https://rpc-amoy.polygon.technology" ∧
      getProp (w2.heap.getD 3 []) "defaultGasLimit" = .num 600000 := by
  obtain ⟨r1, w1, r2, w2, h1, h2, hh1, _, _, _, hsame, hds, _, hurl, _, hchain, hother, _⟩ :=
    ethConnectionConfig_same_in_both 0 1 sampleConfigWorld sampleDataStorage
      (by decide) (by decide)
  have hlen : w1.heap.length = 3 := by rw [hh1]; rfl
  have hok := initInMemoryDataStorage_ok 0 1 sampleConfigWorld
    (confLiteral_accepted _ _ "https://rpc-amoy.polygon.technology"
      "0x1a4cC30f2aA0377b0c3bc9848766D90cb4404124" (by decide) (by decide))
  rw [hlen] at hsame hurl hchain hother
  refine ⟨r1, w1, r2, w2, h1, h2, ?_, hsame, ?_, ?_, ?_⟩
  · rw [hok] at h1
    simp only [Prod.mk.injEq] at h1
    exact ⟨_, h1.1.symm, hds _ h1.1.symm⟩
  · rw [hchain]; decide
  · rw [hurl]; decide
  · rw [hother _ (by decide) (by decide) (by decide)]; decide

/-- A run in which `loadCircuitData` throws ends with exit status 1, the error printed,
and no completion message. -/
theorem main_never_downgrades_an_error_witness :
    Event.threw "loadCircuitData" JSError.CircuitDataUnavailableError ∈
      observe (main "/circuits" (callees 0 (sampleSDK true))) sampleWorld ∧
    completionMessage ∉ observe (main "/circuits" (callees 0 (sampleSDK true))) sampleWorld ∧
    Event.logError ["Error in authentication flow:", "CircuitDataUnavailableError"] ∈
      observe (main "/circuits" (callees 0 (sampleSDK true))) sampleWorld ∧
    (observe (main "/circuits" (callees 0 (sampleSDK true))) sampleWorld).getLast? =
      some (Event.processExit 1) :=
  have hthrew : Event.threw "loadCircuitData" JSError.CircuitDataUnavailableError ∈
      observe (main "/circuits" (callees 0 (sampleSDK true))) sampleWorld :=
    List.getElem?_mem (n := 21) rfl
  ⟨hthrew,
    (main_never_downgrades_an_error "/circuits" (callees 0 (sampleSDK true)) sampleWorld).2.1
      _ _ hthrew⟩

/-- In a run without error the request handed to the handler is the authorization request
built on the identifier of the issuer, and it passes validation. -/
theorem authRequest_passes_validation_witness :
    ∃ h did,
      Event.call (.handleAuthorizationRequest h did (authRequest "did:issuer")) ∈
        observe (main "/circuits" (callees 0 (sampleSDK false))) sampleWorld ∧
      (∃ issuerDID, authRequest "did:issuer" = authRequest issuerDID ∧
        Event.log ["-> Issuer Identity DID:", issuerDID] ∈
          observe (main "/circuits" (callees 0 (sampleSDK false))) sampleWorld ∧
        Event.log ["-> User Identity DID:", did.string] ∈
          observe (main "/circuits" (callees 0 (sampleSDK false))) sampleWorld) ∧
      receivedToParsed (authRequest "did:issuer") ≠
        Except.error JSError.MalformedMessageError := by
  have hcall : ∃ h did,
      (observe (main "/circuits" (callees 0 (sampleSDK false))) sampleWorld)[26]? =
        some (Event.call (.handleAuthorizationRequest h did (authRequest "did:issuer"))) :=
    ⟨_, _, rfl⟩
  obtain ⟨h, did, hk⟩ := hcall
  have hthm := authRequest_passes_validation "/circuits" (callees 0 (sampleSDK false)) sampleWorld
  exact ⟨h, did, List.getElem?_mem hk, hthm.2 _ _ _ (List.getElem?_mem hk),
    (hthm.1 "did:issuer").2.1⟩

/-- In a sample run `createIdentity` is called on a wallet whose two registries know the
tag of the options. -/
theorem revocation_strategy_is_registered_witness :
    ∃ identityWallet r publisher,
      Event.call (.createIdentity identityWallet defaultIdentityCreationOptions) ∈
        observe (main "/circuits" (callees 0 (sampleSDK false))) sampleWorld ∧
      identityWallet.credentialWallet.resolvers.get "Iden3ReverseSparseMerkleTreeProof" =
        some (.rhs r) ∧
      identityWallet.opts.credentialStatusPublisherRegistry.get
        "Iden3ReverseSparseMerkleTreeProof" = some publisher := by
  obtain ⟨_, _, _, ⟨iw, hcall⟩, hall⟩ :=
    revocation_strategy_is_registered "/circuits" 0 (sampleSDK false) sampleWorld
      sampleDataStorage 1 sampleConfigWorld
  obtain ⟨_, ⟨r, hr, _⟩, ⟨p, hp⟩⟩ := hall _ _ hcall
  exact ⟨iw, r, p, hcall, hr, hp⟩

/-- In a sample run the handler is called, with a proof service wired as stated. -/
theorem initProofService_wiring_witness :
    ∃ h did request,
      Event.call (.handleAuthorizationRequest h did request) ∈
        observe (main "/circuits" (callees 0 (sampleSDK false))) sampleWorld ∧
      h.proofService.stateStorage = h.proofService.identityWallet.storage.states ∧
      h.proofService.circuitStorage.dirname = "/circuits" ∧
      (∃ r, h.proofService.credentialWallet.resolvers.get
          CredentialStatusType.Iden3ReverseSparseMerkleTreeProof = some (.rhs r) ∧
        r.state = h.proofService.stateStorage) := by
  have hcall : ∃ h did request,
      (observe (main "/circuits" (callees 0 (sampleSDK false))) sampleWorld)[26]? =
        some (Event.call (.handleAuthorizationRequest h did request)) :=
    ⟨_, _, _, rfl⟩
  obtain ⟨h, did, request, hk⟩ := hcall
  have hload : Event.call (.loadCircuitData ⟨20, "/circuits"⟩ CircuitId.AuthV2) ∈
      observe (main "/circuits" (callees 0 (sampleSDK false))) sampleWorld :=
    List.getElem?_mem (n := 20) rfl
  obtain ⟨hstate, _, hrhs, _, hcs, _⟩ :=
    (initProofService_wiring "/circuits" 0 (sampleSDK false) sampleWorld
      sampleIdentityWallet sampleCredentialWallet sampleDataStorage.states ⟨0, "/circuits"⟩ sampleWorld).2 h did request
      (List.getElem?_mem hk)
  refine ⟨h, did, request, List.getElem?_mem hk, hstate, ?_, hrhs⟩
  rw [← (hcs _ _ hload).1]

end PolygonIdAuth
